import Mathlib

/-!
Verification of the TakeOff2 extraction/verification pipeline.

This file shallowly embeds the parts of the Python source that the claims
C1-C10 are about, and proves (or refutes) each claim against the embedding:

* `src/verifier/metrics.py` — field-level precision/recall/F1;
* `src/agents/orchestrator.py` — two-pass orientation reconciliation
  (`verify_orientation_passes`, `angular_distance`) and `deduplicate_by_name`;
* `src/cv_sensors/north_arrow.py` — circular mean, line-confidence
  thresholds, best-corner-region selection;
* `src/verifier/persistence.py` — `get_next_iteration`;
* `src/verifier/compare.py` — flattening, tolerance lookup, `values_match`,
  `compare_fields`, `compare_all_fields`;
* `src/schemas/transform.py` + `src/schemas/takeoff_spec.py` — the
  TakeoffSpec → BuildingSpec transform.

Conventions of the embedding:
* Python floats are modelled as exact rationals `ℚ`; Python ints as `ℤ`
  (counts as `ℕ` where Python guarantees non-negativity).
* Python strings are Lean `String`s; `str.lower`/`.strip` and the regexes
  used by the source are modelled over ASCII (the evaluation data is ASCII).
* JSON values are the inductive `JValue`; Python `None` is `JValue.null`,
  so `dict.get` returning `None` for a missing key and a stored JSON `null`
  are conflated exactly as in Python.
* Fallible Python code (an uncaught `KeyError`) is modelled with `Option`.
-/

namespace TakeOff

/-! ## Generic helpers shared by the embeddings -/

/-- Association-list lookup, modelling Python `dict[k]` / `dict.get(k)` for
dicts that are iterated in insertion order. -/
def alookup (k : String) : List (String × α) → Option α
  | [] => none
  | (k', v) :: rest => if k = k' then some v else alookup k rest

/-- Python floored modulo on rationals (`x % y` for `y > 0`). -/
def qfmod (x y : ℚ) : ℚ := x - y * (⌊x / y⌋ : ℤ)

/-- Python `round` to an integer: round half to even (banker's rounding),
on the exact rational value. -/
def roundHalfEven (x : ℚ) : ℤ :=
  let f := ⌊x⌋
  let r := x - (f : ℚ)
  if r < 1/2 then f
  else if 1/2 < r then f + 1
  else if f % 2 = 0 then f else f + 1

/-- Python `round(x, 1)`. -/
def round1 (x : ℚ) : ℚ := (roundHalfEven (10 * x) : ℚ) / 10

/-! ## JSON values

`JValue` is the common value type for everything that flows through the
verifier: the output of `json.load` plus the Python scalars the comparison
code manipulates.  A single `num` constructor covers Python `int` and
`float`; the only place the source distinguishes them (`type(expected) !=
type(actual)` in mismatch classification) is unreachable for two numbers
because the `isinstance(..., (int, float))` test fires first. -/

inductive JValue where
  | null
  | bool (b : Bool)
  | num (q : ℚ)
  | str (s : String)
  | arr (elems : List JValue)
  | obj (fields : List (String × JValue))

/-- `v is None` in Python. -/
def JValue.isNull : JValue → Bool
  | .null => true
  | _ => false

/-! ## `src/verifier/metrics.py` -/

/-- `FieldDiscrepancy` dataclass from `src/verifier/compare.py`. -/
structure FieldDiscrepancy where
  field_path : String
  expected : JValue
  actual : JValue
  error_type : String

/-- Return value of `compute_field_level_metrics` (the dict it builds;
`errors_by_type` is inlined as four fields). -/
structure Metrics where
  precision : ℚ
  «recall» : ℚ
  f1 : ℚ
  true_positives : ℤ
  false_positives : ℤ
  false_negatives : ℤ
  total_fields_gt : ℤ
  total_fields_extracted : ℤ
  correct_fields : ℤ
  omissions : ℕ
  hallucinations : ℕ
  wrong_values : ℕ
  format_errors : ℕ

/-- `compute_field_level_metrics` from `src/verifier/metrics.py`.
Note: the source computes `true_positives = total_fields_gt - omissions -
wrong_values - format_errors` with no clamping. -/
def compute_field_level_metrics (discrepancies : List FieldDiscrepancy)
    (total_fields_gt total_fields_extracted : ℤ) : Metrics :=
  let omissions := discrepancies.countP (fun d => d.error_type == "omission")
  let hallucinations := discrepancies.countP (fun d => d.error_type == "hallucination")
  let wrong_values := discrepancies.countP (fun d => d.error_type == "wrong_value")
  let format_errors := discrepancies.countP (fun d => d.error_type == "format_error")
  let true_positives : ℤ := total_fields_gt - omissions - wrong_values - format_errors
  let false_positives : ℤ := (hallucinations : ℤ) + wrong_values + format_errors
  let false_negatives : ℤ := omissions
  let precision : ℚ :=
    if 0 < true_positives + false_positives
    then (true_positives : ℚ) / ((true_positives : ℚ) + (false_positives : ℚ)) else 0
  let «recall» : ℚ :=
    if 0 < true_positives + false_negatives
    then (true_positives : ℚ) / ((true_positives : ℚ) + (false_negatives : ℚ)) else 0
  let f1 : ℚ :=
    if 0 < precision + «recall»
    then 2 * (precision * «recall») / (precision + «recall») else 0
  { precision := precision
    «recall» := «recall»
    f1 := f1
    true_positives := true_positives
    false_positives := false_positives
    false_negatives := false_negatives
    total_fields_gt := total_fields_gt
    total_fields_extracted := total_fields_extracted
    correct_fields := true_positives
    omissions := omissions
    hallucinations := hallucinations
    wrong_values := wrong_values
    format_errors := format_errors }

/-! ## `verify_orientation_passes` from `src/agents/orchestrator.py` -/

/-- `angular_distance` (orchestrator.py line 719): minimum angular distance
between two angles, `min(|a-b| % 360, 360 - |a-b| % 360)`. -/
def angular_distance (a b : ℚ) : ℚ :=
  let diff := qfmod |a - b| 360
  min diff (360 - diff)

/-- The dict produced by `run_orientation_pass_async`: `status` is
`"success"` or `"error"`; `orientation` and `confidence` are only read by
`verify_orientation_passes` when `status == "success"`. -/
structure OrientationPassResult where
  status : String
  orientation : ℚ
  confidence : String

/-- The reconciliation result of `verify_orientation_passes`; the
free-text `notes` field and the echoed `pass1_orientation` /
`pass2_orientation` keys are presentation-only and not modelled. -/
structure OrientationVerification where
  final_orientation : ℚ
  confidence : String
  verification : String

/-- `conf_rank.get(confidence, 0)` with
`conf_rank = {"high": 3, "medium": 2, "low": 1, "unknown": 0}`. -/
def conf_rank (c : String) : ℕ :=
  if c = "high" then 3 else if c = "medium" then 2 else if c = "low" then 1 else 0

/-- The agreement-branch average of `verify_orientation_passes`
(orchestrator.py lines 841-844): arithmetic mean, then a +180° correction
(mod 360) when the raw difference exceeds 180° (i.e. the pair wraps
around 0/360), before rounding. -/
def agreement_avg (o1 o2 : ℚ) : ℚ :=
  let avg := (o1 + o2) / 2
  if 180 < |o1 - o2| then qfmod (avg + 180) 360 else avg

/-- `verify_orientation_passes` from `src/agents/orchestrator.py`
(lines 801-888). -/
def verify_orientation_passes (pass1 pass2 : OrientationPassResult) :
    OrientationVerification :=
  if pass1.status ≠ "success" ∧ pass2.status ≠ "success" then
    ⟨0, "low", "both_failed"⟩
  else if pass1.status ≠ "success" then
    ⟨pass2.orientation, pass2.confidence, "pass1_failed"⟩
  else if pass2.status ≠ "success" then
    ⟨pass1.orientation, pass1.confidence, "pass2_failed"⟩
  else
    let o1 := pass1.orientation
    let o2 := pass2.orientation
    let diff := angular_distance o1 o2
    if diff ≤ 20 then
      ⟨round1 (agreement_avg o1 o2), "high", "agreement"⟩
    else
      let c1 := conf_rank pass1.confidence
      let c2 := conf_rank pass2.confidence
      let chosen := if c2 ≤ c1 then o1 else o2
      if 70 ≤ diff ∧ diff ≤ 110 then
        ⟨chosen, "low", "side_front_confusion"⟩
      else if 160 ≤ diff ∧ diff ≤ 200 then
        ⟨chosen, "low", "front_back_confusion"⟩
      else
        ⟨chosen, "low", "disagreement"⟩

/-! ## Claim theorems: C1, C2 -/

/-- C1 (code bug evidence): `compute_field_level_metrics` does NOT clamp
`true_positives` at 0.  At the input of the repository's own test
`test_true_positives_never_negative` (ten `wrong_value` discrepancies
against 3 ground-truth fields) the code yields `true_positives = -7`,
violating both the spec's "clamped at 0" and the test's `>= 0` assertion. -/
theorem compute_metrics_tp_not_clamped :
    (compute_field_level_metrics
      (List.replicate 10 ⟨"field0", JValue.str "a", JValue.str "b", "wrong_value"⟩)
      3 10).true_positives = -7 ∧ ¬ (0 ≤ (compute_field_level_metrics
      (List.replicate 10 ⟨"field0", JValue.str "a", JValue.str "b", "wrong_value"⟩)
      3 10).true_positives) := by
  constructor
  · rfl
  · decide

/-- C2: case analysis of `verify_orientation_passes`.  If exactly one pass
failed, the surviving pass's bearing and confidence are returned with
category `pass1_failed` / `pass2_failed`; if both failed, bearing 0.0,
confidence low, category `both_failed`; if both succeeded with
Δ = `angular_distance`, then 70 ≤ Δ ≤ 110 gives `side_front_confusion`,
160 ≤ Δ ≤ 200 gives `front_back_confusion`, and any other Δ > 20 gives
`disagreement`, each returning the bearing of the pass with the higher
ranked confidence (ties go to pass 1) and confidence low. -/
theorem verify_orientation_cases (p1 p2 : OrientationPassResult) :
    (p1.status ≠ "success" → p2.status ≠ "success" →
      verify_orientation_passes p1 p2 = ⟨0, "low", "both_failed"⟩) ∧
    (p1.status ≠ "success" → p2.status = "success" →
      verify_orientation_passes p1 p2 =
        ⟨p2.orientation, p2.confidence, "pass1_failed"⟩) ∧
    (p1.status = "success" → p2.status ≠ "success" →
      verify_orientation_passes p1 p2 =
        ⟨p1.orientation, p1.confidence, "pass2_failed"⟩) ∧
    (p1.status = "success" → p2.status = "success" →
      (70 ≤ angular_distance p1.orientation p2.orientation →
       angular_distance p1.orientation p2.orientation ≤ 110 →
        verify_orientation_passes p1 p2 =
          ⟨if conf_rank p2.confidence ≤ conf_rank p1.confidence
            then p1.orientation else p2.orientation,
           "low", "side_front_confusion"⟩) ∧
      (160 ≤ angular_distance p1.orientation p2.orientation →
       angular_distance p1.orientation p2.orientation ≤ 200 →
        verify_orientation_passes p1 p2 =
          ⟨if conf_rank p2.confidence ≤ conf_rank p1.confidence
            then p1.orientation else p2.orientation,
           "low", "front_back_confusion"⟩) ∧
      (20 < angular_distance p1.orientation p2.orientation →
       ¬ (70 ≤ angular_distance p1.orientation p2.orientation ∧
          angular_distance p1.orientation p2.orientation ≤ 110) →
       ¬ (160 ≤ angular_distance p1.orientation p2.orientation ∧
          angular_distance p1.orientation p2.orientation ≤ 200) →
        verify_orientation_passes p1 p2 =
          ⟨if conf_rank p2.confidence ≤ conf_rank p1.confidence
            then p1.orientation else p2.orientation,
           "low", "disagreement"⟩)) := by
  refine ⟨?_, ?_, ?_, ?_⟩
  · intro h1 h2
    simp [verify_orientation_passes, h1, h2]
  · intro h1 h2
    simp [verify_orientation_passes, h1, h2]
  · intro h1 h2
    simp [verify_orientation_passes, h1, h2]
  · intro h1 h2
    refine ⟨?_, ?_, ?_⟩
    · intro hlo hhi
      have h20 : ¬ (angular_distance p1.orientation p2.orientation ≤ 20) := by
        intro h; linarith
      simp [verify_orientation_passes, h1, h2, h20, hlo, hhi]
    · intro hlo hhi
      have h20 : ¬ (angular_distance p1.orientation p2.orientation ≤ 20) := by
        intro h; linarith
      have hno : ¬ (70 ≤ angular_distance p1.orientation p2.orientation ∧
          angular_distance p1.orientation p2.orientation ≤ 110) := by
        rintro ⟨-, h⟩; linarith
      simp [verify_orientation_passes, h1, h2, h20, hno, hlo, hhi]
    · intro h20 hno1 hno2
      have h20' : ¬ (angular_distance p1.orientation p2.orientation ≤ 20) := by
        intro h; linarith
      simp [verify_orientation_passes, h1, h2, h20', hno1, hno2]

/-- C2 witness: the four interesting branches at concrete inputs, including
the spec's side/front scenario (pass 1 = 90° medium, pass 2 = 0° high →
final 0°, low, `side_front_confusion`). -/
theorem verify_orientation_cases_witness :
    verify_orientation_passes ⟨"error", 0, "unknown"⟩ ⟨"error", 0, "unknown"⟩ =
      ⟨0, "low", "both_failed"⟩ ∧
    verify_orientation_passes ⟨"error", 0, "unknown"⟩ ⟨"success", 210, "medium"⟩ =
      ⟨210, "medium", "pass1_failed"⟩ ∧
    verify_orientation_passes ⟨"success", 90, "medium"⟩ ⟨"success", 0, "high"⟩ =
      ⟨0, "low", "side_front_confusion"⟩ ∧
    verify_orientation_passes ⟨"success", 10, "low"⟩ ⟨"success", 190, "low"⟩ =
      ⟨10, "low", "front_back_confusion"⟩ ∧
    verify_orientation_passes ⟨"success", 0, "high"⟩ ⟨"success", 50, "medium"⟩ =
      ⟨0, "low", "disagreement"⟩ := by
  have h1 := (verify_orientation_cases ⟨"error", 0, "unknown"⟩ ⟨"error", 0, "unknown"⟩).1
    (by decide) (by decide)
  have h2 := (verify_orientation_cases ⟨"error", 0, "unknown"⟩ ⟨"success", 210, "medium"⟩).2.1
    (by decide) rfl
  have h3 := ((verify_orientation_cases ⟨"success", 90, "medium"⟩ ⟨"success", 0, "high"⟩).2.2.2
    rfl rfl).1 (by norm_num [angular_distance, qfmod, min_def])
    (by norm_num [angular_distance, qfmod, min_def])
  have h4 := ((verify_orientation_cases ⟨"success", 10, "low"⟩ ⟨"success", 190, "low"⟩).2.2.2
    rfl rfl).2.1 (by norm_num [angular_distance, qfmod, min_def])
    (by norm_num [angular_distance, qfmod, min_def])
  have h5 := ((verify_orientation_cases ⟨"success", 0, "high"⟩ ⟨"success", 50, "medium"⟩).2.2.2
    rfl rfl).2.2 (by norm_num [angular_distance, qfmod, min_def])
    (by norm_num [angular_distance, qfmod, min_def])
    (by norm_num [angular_distance, qfmod, min_def])
  refine ⟨h1, ?_, ?_, ?_, ?_⟩
  · simpa using h2
  · simpa [conf_rank] using h3
  · simpa [conf_rank] using h4
  · simpa [conf_rank] using h5

/-! ## `src/cv_sensors/north_arrow.py`: line confidence and region selection -/

/-- north_arrow.py line 30. -/
def LINE_CONFIDENCE_MEDIUM_THRESHOLD : ℚ := 80

/-- north_arrow.py line 31. -/
def LINE_CONFIDENCE_LOW_THRESHOLD : ℚ := 50

/-- The confidence-assignment step of `_detect_via_lines` (north_arrow.py
lines 203-210), as a function of the best non-axis-aligned candidate's
length and its compass bearing.  The length is the value `np.sqrt(...)`
computed by the source; it is treated as an exact input here (a length of
exactly 80 px is realizable, e.g. a segment with `dx = 48, dy = 64`).
Returns `(angle, confidence)`; the source nulls the bearing in the final
branch. -/
def line_confidence_result (compass_bearing max_length : ℚ) : Option ℚ × String :=
  if LINE_CONFIDENCE_MEDIUM_THRESHOLD < max_length then (some compass_bearing, "medium")
  else if LINE_CONFIDENCE_LOW_THRESHOLD < max_length then (some compass_bearing, "low")
  else (none, "none")

/-- A region's combined detection result (`_combine_results` output /
`_no_detection`), as consumed by the best-region loop of
`detect_north_arrow_angle`.  The `debug` dict is not modelled. -/
structure NorthArrowResult where
  angle : Option ℚ
  confidence : String
  method : String

/-- `confidence_scores.get(confidence, 0)` with
`confidence_scores = {"high": 3, "medium": 2, "low": 1, "none": 0}`
(north_arrow.py line 124). -/
def confidence_scores (c : String) : ℕ :=
  if c = "high" then 3 else if c = "medium" then 2 else if c = "low" then 1 else 0

/-- The best-region loop of `detect_north_arrow_angle` (north_arrow.py
lines 107-130): `best_result` starts as `None` and is replaced only when a
region's score strictly exceeds the best so far (initially 0). -/
def detect_best_region_loop :
    List NorthArrowResult → Option NorthArrowResult → ℕ → Option NorthArrowResult
  | [], best_result, _ => best_result
  | r :: rest, best_result, best_confidence_score =>
    let score := confidence_scores r.confidence
    if best_confidence_score < score then detect_best_region_loop rest (some r) score
    else detect_best_region_loop rest best_result best_confidence_score

/-- `detect_north_arrow_angle`, abstracted over the per-region combined
results (rendering and the OpenCV detectors are external collaborators). -/
def detect_north_arrow_angle (region_results : List NorthArrowResult) :
    Option NorthArrowResult :=
  detect_best_region_loop region_results none 0

/-! ## `EvalStore.get_next_iteration` from `src/verifier/persistence.py` -/

/-- One entry of `results_dir.iterdir()`. -/
structure DirEntry where
  name : String
  isDir : Bool

/-- Value of a non-empty digit string. -/
def digitsToNat (ds : List Char) : ℕ := ds.foldl (fun n c => 10 * n + (c.toNat - 48)) 0

/-- `re.compile(r"iteration-(\d+)").match(name)`, returning the integer
value of the captured group: an anchored prefix match of the literal
`iteration-` followed by at least one digit (trailing characters are
allowed, as with `re.match`). -/
def parse_iteration_name (s : String) : Option ℕ :=
  let cs := s.toList
  if ("iteration-".toList).isPrefixOf cs then
    let ds := (cs.drop 10).takeWhile Char.isDigit
    if ds.isEmpty then none else some (digitsToNat ds)
  else none

/-- `EvalStore.get_next_iteration` (persistence.py lines 40-62), abstracted
over the filesystem: whether the results directory exists, and its entries.
Scans for directories matching `iteration-(\d+)`, keeps the running
maximum (starting at 0), and returns it plus one. -/
def get_next_iteration (results_dir_exists : Bool) (entries : List DirEntry) : ℕ :=
  if results_dir_exists = false then 1
  else
    (entries.foldl (fun max_iteration item =>
      if item.isDir then
        match parse_iteration_name item.name with
        | some iteration => max max_iteration iteration
        | none => max_iteration
      else max_iteration) 0) + 1

/-- The iteration numbers present among the entries (directories matching
the pattern). -/
def iteration_numbers (entries : List DirEntry) : List ℕ :=
  entries.filterMap (fun item => if item.isDir then parse_iteration_name item.name else none)

/-! ## Claim theorems: C6, C10, C8 -/

/-- C6 counterexample: the claim's thresholds are inclusive (`L ≥ 80 ⇒
medium`), but the source uses strict comparisons: at a best candidate of
length exactly 80 px (e.g. the segment (0,0)-(48,64)), the code returns
confidence `"low"`, not `"medium"`; at exactly 50 px it returns `"none"`,
not `"low"`. -/
theorem line_confidence_ge_claim_false :
    LINE_CONFIDENCE_MEDIUM_THRESHOLD ≤ 80 ∧
    (line_confidence_result 143 80).2 = "low" ∧
    (line_confidence_result 143 80).2 ≠ "medium" ∧
    LINE_CONFIDENCE_LOW_THRESHOLD ≤ 50 ∧
    (line_confidence_result 143 50).2 = "none" := by
  have h80 : ¬ (LINE_CONFIDENCE_MEDIUM_THRESHOLD < (80 : ℚ)) := by
    norm_num [LINE_CONFIDENCE_MEDIUM_THRESHOLD]
  have h50 : LINE_CONFIDENCE_LOW_THRESHOLD < (80 : ℚ) := by
    norm_num [LINE_CONFIDENCE_LOW_THRESHOLD]
  have h80' : ¬ (LINE_CONFIDENCE_MEDIUM_THRESHOLD < (50 : ℚ)) := by
    norm_num [LINE_CONFIDENCE_MEDIUM_THRESHOLD]
  have h50' : ¬ (LINE_CONFIDENCE_LOW_THRESHOLD < (50 : ℚ)) := by
    norm_num [LINE_CONFIDENCE_LOW_THRESHOLD]
  refine ⟨by norm_num [LINE_CONFIDENCE_MEDIUM_THRESHOLD], ?_, ?_,
    by norm_num [LINE_CONFIDENCE_LOW_THRESHOLD], ?_⟩ <;>
    simp [line_confidence_result, h80, h50, h80', h50']

/-- C6 amended: with strict thresholds — a best non-axis-aligned candidate
of length L > 80 px gives confidence `"medium"`; otherwise L > 50 px gives
`"low"`; otherwise no bearing is returned (confidence `"none"`, angle
null). -/
theorem line_confidence_strict (b L : ℚ) :
    (80 < L → line_confidence_result b L = (some b, "medium")) ∧
    (L ≤ 80 → 50 < L → line_confidence_result b L = (some b, "low")) ∧
    (L ≤ 50 → line_confidence_result b L = (none, "none")) := by
  refine ⟨fun h => ?_, fun h h' => ?_, fun h => ?_⟩
  · have : LINE_CONFIDENCE_MEDIUM_THRESHOLD < L := by
      rw [LINE_CONFIDENCE_MEDIUM_THRESHOLD]; exact h
    simp [line_confidence_result, this]
  · have h1 : ¬ (LINE_CONFIDENCE_MEDIUM_THRESHOLD < L) := by
      rw [LINE_CONFIDENCE_MEDIUM_THRESHOLD]; linarith
    have h2 : LINE_CONFIDENCE_LOW_THRESHOLD < L := by
      rw [LINE_CONFIDENCE_LOW_THRESHOLD]; exact h'
    simp [line_confidence_result, h1, h2]
  · have h1 : ¬ (LINE_CONFIDENCE_MEDIUM_THRESHOLD < L) := by
      rw [LINE_CONFIDENCE_MEDIUM_THRESHOLD]; linarith
    have h2 : ¬ (LINE_CONFIDENCE_LOW_THRESHOLD < L) := by
      rw [LINE_CONFIDENCE_LOW_THRESHOLD]; linarith
    simp [line_confidence_result, h1, h2]

/-- C6 witness: the three branches at lengths 100, 60 and 40. -/
theorem line_confidence_strict_witness :
    line_confidence_result 143 100 = (some 143, "medium") ∧
    line_confidence_result 143 60 = (some 143, "low") ∧
    line_confidence_result 143 40 = (none, "none") :=
  ⟨(line_confidence_strict 143 100).1 (by norm_num),
   (line_confidence_strict 143 60).2.1 (by norm_num) (by norm_num),
   (line_confidence_strict 143 40).2.2 (by norm_num)⟩

/-- Helper for C10: what the best-region loop returns something means. -/
theorem detect_best_region_loop_isSome (l : List NorthArrowResult) :
    ∀ (best : Option NorthArrowResult) (s : ℕ),
    (detect_best_region_loop l best s).isSome =
      (best.isSome || l.any (fun r => decide (s < confidence_scores r.confidence))) := by
  induction l with
  | nil => intro best s; simp [detect_best_region_loop]
  | cons r rest ih =>
    intro best s
    by_cases h : s < confidence_scores r.confidence
    · simp [detect_best_region_loop, h, ih]
    · simp [detect_best_region_loop, h, ih]

/-- C10: `detect_north_arrow_angle` returns a record iff some region's
combined confidence ranks strictly above `"none"` (score > 0); when every
region reports `"none"` it returns `None` — not the standard no-detection
record. -/
theorem detect_north_arrow_angle_some_iff (region_results : List NorthArrowResult) :
    ((detect_north_arrow_angle region_results).isSome ↔
      ∃ r ∈ region_results, 0 < confidence_scores r.confidence) ∧
    ((∀ r ∈ region_results, r.confidence = "none") →
      detect_north_arrow_angle region_results = none) := by
  have hiff : (detect_north_arrow_angle region_results).isSome ↔
      ∃ r ∈ region_results, 0 < confidence_scores r.confidence := by
    rw [detect_north_arrow_angle, detect_best_region_loop_isSome]
    simp [List.any_eq_true]
  refine ⟨hiff, fun hall => ?_⟩
  have : ¬ (detect_north_arrow_angle region_results).isSome := by
    rw [hiff]
    rintro ⟨r, hr, hpos⟩
    rw [hall r hr] at hpos
    simp [confidence_scores] at hpos
  simpa [Option.not_isSome_iff_eq_none] using this

/-- C10 witness: four `"none"` regions give `None`; one `"low"` region
gives a record. -/
theorem detect_north_arrow_angle_some_iff_witness :
    detect_north_arrow_angle
      [⟨none, "none", "none"⟩, ⟨none, "none", "none"⟩,
       ⟨none, "none", "none"⟩, ⟨none, "none", "none"⟩] = none ∧
    (detect_north_arrow_angle
      [⟨some 30, "low", "lines"⟩, ⟨none, "none", "none"⟩]).isSome := by
  constructor
  · exact (detect_north_arrow_angle_some_iff _).2 (by intro r hr; fin_cases hr <;> rfl)
  · exact (detect_north_arrow_angle_some_iff _).1.mpr
      ⟨⟨some 30, "low", "lines"⟩, by simp, by simp [confidence_scores]⟩

/-- Helper for C8: lower bounds of the running maximum. -/
theorem foldl_max_bounds (l : List ℕ) : ∀ a : ℕ,
    a ≤ l.foldl max a ∧ ∀ x ∈ l, x ≤ l.foldl max a := by
  induction l with
  | nil => intro a; simp
  | cons y rest ih =>
    intro a
    refine ⟨le_trans (le_max_left a y) (ih (max a y)).1, ?_⟩
    intro x hx
    rcases List.mem_cons.mp hx with rfl | hx
    · exact le_trans (le_max_right a x) (ih (max a x)).1
    · exact (ih (max a y)).2 x hx

/-- Helper for C8: the running maximum is attained. -/
theorem foldl_max_mem (l : List ℕ) : ∀ a : ℕ,
    l.foldl max a = a ∨ l.foldl max a ∈ l := by
  induction l with
  | nil => intro a; simp
  | cons y rest ih =>
    intro a
    rcases ih (max a y) with h | h
    · rcases le_total y a with hy | hy
      · left
        have he : max a y = a := max_eq_left hy
        rw [he] at h
        rw [List.foldl_cons, he]
        exact h
      · right
        have he : max a y = y := max_eq_right hy
        rw [List.foldl_cons, h, he]
        exact List.mem_cons_self y rest
    · right
      rw [List.foldl_cons]
      exact List.mem_cons_of_mem y h

/-- Helper for C8: the scanning fold of `get_next_iteration` is the plain
maximum-fold over the matching iteration numbers. -/
theorem get_next_iteration_loop_eq (l : List DirEntry) : ∀ a : ℕ,
    l.foldl (fun max_iteration item =>
      if item.isDir then
        match parse_iteration_name item.name with
        | some iteration => max max_iteration iteration
        | none => max_iteration
      else max_iteration) a
    = (l.filterMap (fun item =>
        if item.isDir then parse_iteration_name item.name else none)).foldl max a := by
  induction l with
  | nil => intro a; rfl
  | cons e rest ih =>
    intro a
    cases he : e.isDir
    · simp only [List.foldl_cons, List.filterMap_cons, he, if_false]
      exact ih a
    · cases hp : parse_iteration_name e.name
      · simp only [List.foldl_cons, List.filterMap_cons, he, if_true, hp]
        exact ih a
      · simp only [List.foldl_cons, List.filterMap_cons, he, if_true, hp]
        exact ih _

/-- Helper for C8: the loop in `get_next_iteration` computes the maximum of
`iteration_numbers`. -/
theorem get_next_iteration_eq_foldl (entries : List DirEntry) :
    get_next_iteration true entries = (iteration_numbers entries).foldl max 0 + 1 := by
  rw [get_next_iteration, iteration_numbers, if_neg (by simp)]
  rw [get_next_iteration_loop_eq]

/-- C8: `get_next_iteration` returns 1 when the results directory is
missing or holds no `iteration-NNN` directories, and the maximum existing
iteration number plus one otherwise. -/
theorem get_next_iteration_spec (entries : List DirEntry) :
    (get_next_iteration false entries = 1) ∧
    (iteration_numbers entries = [] → get_next_iteration true entries = 1) ∧
    (∀ n ∈ iteration_numbers entries, n < get_next_iteration true entries) ∧
    (iteration_numbers entries ≠ [] →
      ∃ n ∈ iteration_numbers entries, get_next_iteration true entries = n + 1 ∧
        ∀ m ∈ iteration_numbers entries, m ≤ n) := by
  refine ⟨rfl, ?_, ?_, ?_⟩
  · intro h
    rw [get_next_iteration_eq_foldl, h]
    simp
  · intro n hn
    rw [get_next_iteration_eq_foldl]
    have := (foldl_max_bounds (iteration_numbers entries) 0).2 n hn
    omega
  · intro hne
    rw [get_next_iteration_eq_foldl]
    rcases foldl_max_mem (iteration_numbers entries) 0 with h | h
    · rcases List.exists_mem_of_ne_nil _ hne with ⟨x, hx⟩
      have hxle := (foldl_max_bounds (iteration_numbers entries) 0).2 x hx
      refine ⟨x, hx, ?_, ?_⟩
      · omega
      · intro m hm
        have := (foldl_max_bounds (iteration_numbers entries) 0).2 m hm
        omega
    · exact ⟨_, h, rfl, (foldl_max_bounds (iteration_numbers entries) 0).2⟩

/-- C8 witness: an empty directory gives 1; a directory holding only
`iteration-003` (iteration 2 skipped) gives 4. -/
theorem get_next_iteration_spec_witness :
    get_next_iteration false [] = 1 ∧
    get_next_iteration true [] = 1 ∧
    get_next_iteration true [⟨"iteration-003", true⟩] = 4 := by
  refine ⟨(get_next_iteration_spec []).1, (get_next_iteration_spec []).2.1 rfl, ?_⟩
  have h := (get_next_iteration_spec [⟨"iteration-003", true⟩]).2.2.2 (by decide)
  rcases h with ⟨n, hn, heq, -⟩
  have : n = 3 := by
    have : iteration_numbers [⟨"iteration-003", true⟩] = [3] := by decide
    rw [this] at hn
    simpa using hn
  rw [heq, this]

/-! ## `_circular_mean_degrees` from `src/cv_sensors/north_arrow.py`

The C3 refinement claim compares two rules: the agreement branch of
`verify_orientation_passes` (arithmetic mean with a +180° wraparound
correction, `agreement_avg` above) and the trigonometric circular mean
used by the north-arrow combiner.  The circular mean is embedded over the
reals (`arctan2(y, x)` is `Complex.arg (x + y·I)`; numpy and `arg` both
take values in the half-open interval around ±π, and the final `% 360`
maps both conventions onto `[0, 360)`). -/

/-- numpy `%` (floored modulo) on reals. -/
noncomputable def rfmod (x y : ℝ) : ℝ := x - y * (⌊x / y⌋ : ℤ)

/-- `_circular_mean_degrees` (north_arrow.py lines 51-59): radians,
mean sine and cosine, `arctan2`, back to degrees, `% 360`. -/
noncomputable def circular_mean_degrees (angles : List ℚ) : ℝ :=
  let rads := angles.map (fun a => ((a : ℝ)) * (Real.pi / 180))
  let mean_sin := (rads.map Real.sin).sum / (rads.length : ℝ)
  let mean_cos := (rads.map Real.cos).sum / (rads.length : ℝ)
  rfmod ((Complex.arg ((mean_cos : ℂ) + (mean_sin : ℂ) * Complex.I)) * (180 / Real.pi)) 360

/-- `qfmod` is the identity on `[0, 360)`. -/
theorem qfmod_eq_self {q : ℚ} (h0 : 0 ≤ q) (h1 : q < 360) : qfmod q 360 = q := by
  have hf : ⌊q / 360⌋ = 0 := by
    rw [Int.floor_eq_zero_iff]
    constructor
    · positivity
    · rw [div_lt_one (by norm_num)]
      exact h1
  rw [qfmod, hf]
  push_cast
  ring

/-- `rfmod` agrees with `qfmod` on rationals. -/
theorem rfmod_cast (q : ℚ) : rfmod ((q : ℝ)) 360 = ((qfmod q 360 : ℚ) : ℝ) := by
  have hdiv : ((q : ℝ)) / 360 = ((q / 360 : ℚ) : ℝ) := by push_cast; ring
  rw [rfmod, hdiv, Rat.floor_cast, qfmod]
  push_cast
  ring

/-- `rfmod … 360` ignores multiples of 360. -/
theorem rfmod_add_int_mul (x : ℝ) (k : ℤ) : rfmod (x + 360 * k) 360 = rfmod x 360 := by
  have hdiv : (x + 360 * k) / 360 = x / 360 + k := by
    field_simp
    ring
  rw [rfmod, rfmod, hdiv, Int.floor_add_int]
  push_cast
  ring

/-- Sum-to-product for sines (the `Real.sin_sub_sin` form specialised to a
sum). -/
theorem sin_add_sin_real (x y : ℝ) :
    Real.sin x + Real.sin y = 2 * Real.sin ((x + y) / 2) * Real.cos ((x - y) / 2) := by
  have h := Real.sin_sub_sin x (-y)
  simpa [sub_neg_eq_add, sub_eq_add_neg] using h

/-- The mean vector of two unit vectors factors through the half-sum
direction scaled by the cosine of the half-difference. -/
theorem mean_vec_factor (r1 r2 : ℝ) :
    ((((Real.cos r1 + Real.cos r2) / 2 : ℝ)) : ℂ) +
      (((Real.sin r1 + Real.sin r2) / 2 : ℝ) : ℂ) * Complex.I =
    ((Real.cos ((r1 - r2) / 2) : ℝ) : ℂ) *
      (Complex.cos ((((r1 + r2) / 2 : ℝ)) : ℂ) +
       Complex.sin ((((r1 + r2) / 2 : ℝ)) : ℂ) * Complex.I) := by
  rw [← Complex.ofReal_cos, ← Complex.ofReal_sin]
  rw [Real.cos_add_cos, sin_add_sin_real]
  push_cast
  ring

/-- When the half-difference cosine is positive, the argument of the mean
vector is the half-sum, modulo 2π. -/
theorem arg_mean_vec_pos (r1 r2 : ℝ) (hc : 0 < Real.cos ((r1 - r2) / 2)) :
    ∃ k : ℤ,
      Complex.arg ((((Real.cos r1 + Real.cos r2) / 2 : ℝ) : ℂ) +
        (((Real.sin r1 + Real.sin r2) / 2 : ℝ) : ℂ) * Complex.I) =
      (r1 + r2) / 2 + 2 * Real.pi * k := by
  refine ⟨⌊(Real.pi - (r1 + r2) / 2) / (2 * Real.pi)⌋, ?_⟩
  rw [mean_vec_factor]
  have h := Complex.arg_mul_cos_add_sin_mul_I_sub hc ((r1 + r2) / 2)
  linarith

/-- When the half-difference cosine is negative, the argument of the mean
vector is the half-sum plus π, modulo 2π. -/
theorem arg_mean_vec_neg (r1 r2 : ℝ) (hc : Real.cos ((r1 - r2) / 2) < 0) :
    ∃ k : ℤ,
      Complex.arg ((((Real.cos r1 + Real.cos r2) / 2 : ℝ) : ℂ) +
        (((Real.sin r1 + Real.sin r2) / 2 : ℝ) : ℂ) * Complex.I) =
      ((r1 + r2) / 2 + Real.pi) + 2 * Real.pi * k := by
  refine ⟨⌊(Real.pi - ((r1 + r2) / 2 + Real.pi)) / (2 * Real.pi)⌋, ?_⟩
  have hfac : ((((Real.cos r1 + Real.cos r2) / 2 : ℝ)) : ℂ) +
      (((Real.sin r1 + Real.sin r2) / 2 : ℝ) : ℂ) * Complex.I =
      ((- Real.cos ((r1 - r2) / 2) : ℝ) : ℂ) *
        (Complex.cos ((((r1 + r2) / 2 + Real.pi : ℝ)) : ℂ) +
         Complex.sin ((((r1 + r2) / 2 + Real.pi : ℝ)) : ℂ) * Complex.I) := by
    rw [mean_vec_factor r1 r2, ← Complex.ofReal_cos, ← Complex.ofReal_sin,
      ← Complex.ofReal_cos, ← Complex.ofReal_sin,
      Real.cos_add_pi, Real.sin_add_pi]
    push_cast
    ring
  rw [hfac]
  have h := Complex.arg_mul_cos_add_sin_mul_I_sub (neg_pos.mpr hc) ((r1 + r2) / 2 + Real.pi)
  linarith

/-- Unfolding `circular_mean_degrees` on a two-element list. -/
theorem circular_mean_degrees_two (b1 b2 : ℚ) :
    circular_mean_degrees [b1, b2] =
    rfmod ((Complex.arg
      ((((Real.cos ((b1 : ℝ) * (Real.pi / 180)) +
          Real.cos ((b2 : ℝ) * (Real.pi / 180))) / 2 : ℝ) : ℂ) +
       (((Real.sin ((b1 : ℝ) * (Real.pi / 180)) +
          Real.sin ((b2 : ℝ) * (Real.pi / 180))) / 2 : ℝ) : ℂ) * Complex.I))
      * (180 / Real.pi)) 360 := by
  simp only [circular_mean_degrees, List.map_cons, List.map_nil, List.sum_cons, List.sum_nil,
    List.length_cons, List.length_nil, add_zero]
  norm_num

/-- C3 core: on the agreement domain (bearings in `[0, 360)` whose angular
distance is at most 20°), the pre-rounding value combined by the agreement
branch equals the circular mean of the two bearings. -/
theorem agreement_avg_eq_circular_mean (b1 b2 : ℚ)
    (h1 : 0 ≤ b1) (h1' : b1 < 360) (h2 : 0 ≤ b2) (h2' : b2 < 360)
    (hd : angular_distance b1 b2 ≤ 20) :
    ((agreement_avg b1 b2 : ℚ) : ℝ) = circular_mean_degrees [b1, b2] := by
  have habs : |b1 - b2| < 360 := by
    rw [abs_sub_lt_iff]
    constructor <;> linarith
  have habs0 : (0 : ℚ) ≤ |b1 - b2| := abs_nonneg _
  have hdist : angular_distance b1 b2 = min |b1 - b2| (360 - |b1 - b2|) := by
    rw [angular_distance, qfmod_eq_self habs0 habs]
  have hcases : |b1 - b2| ≤ 20 ∨ 340 ≤ |b1 - b2| := by
    rw [hdist] at hd
    rcases le_total |b1 - b2| (360 - |b1 - b2|) with h | h
    · left
      calc |b1 - b2| = min |b1 - b2| (360 - |b1 - b2|) := (min_eq_left h).symm
        _ ≤ 20 := hd
    · right
      have : 360 - |b1 - b2| ≤ 20 := by
        calc 360 - |b1 - b2| = min |b1 - b2| (360 - |b1 - b2|) := (min_eq_right h).symm
          _ ≤ 20 := hd
      linarith
  have hpi := Real.pi_pos
  have hpin := Real.pi_ne_zero
  have hhalfdiff : ((b1 : ℝ) * (Real.pi / 180) - (b2 : ℝ) * (Real.pi / 180)) / 2 =
      ((b1 - b2 : ℚ) : ℝ) * (Real.pi / 360) := by
    push_cast
    ring
  have hhalfsum : ((b1 : ℝ) * (Real.pi / 180) + (b2 : ℝ) * (Real.pi / 180)) / 2 =
      (((b1 + b2) / 2 : ℚ) : ℝ) * (Real.pi / 180) := by
    push_cast
    ring
  rw [circular_mean_degrees_two]
  rcases hcases with hle | hge
  · -- no wraparound: the raw difference is small, the correction is skipped
    have hcode : agreement_avg b1 b2 = (b1 + b2) / 2 := by
      rw [agreement_avg, if_neg]
      intro hgt
      linarith
    have habsR : |((b1 - b2 : ℚ) : ℝ)| ≤ 20 := by
      rw [← Rat.cast_abs]
      exact_mod_cast hle
    obtain ⟨hdlo, hdhi⟩ := abs_le.mp habsR
    have hc : 0 < Real.cos (((b1 : ℝ) * (Real.pi / 180) - (b2 : ℝ) * (Real.pi / 180)) / 2) := by
      apply Real.cos_pos_of_mem_Ioo
      constructor
      · rw [hhalfdiff]
        nlinarith
      · rw [hhalfdiff]
        nlinarith
    obtain ⟨k, hk⟩ := arg_mean_vec_pos ((b1 : ℝ) * (Real.pi / 180))
      ((b2 : ℝ) * (Real.pi / 180)) hc
    rw [hk, hhalfsum]
    have hdeg' : ((((b1 + b2) / 2 : ℚ) : ℝ) * (Real.pi / 180) + 2 * Real.pi * k) *
        (180 / Real.pi) = (((b1 + b2) / 2 : ℚ) : ℝ) + 360 * k := by
      field_simp
      ring
    rw [hdeg', rfmod_add_int_mul, rfmod_cast,
      qfmod_eq_self (by linarith) (by linarith), hcode]
  · -- wraparound: the raw difference exceeds 180, the correction applies
    have hcode : agreement_avg b1 b2 = qfmod ((b1 + b2) / 2 + 180) 360 := by
      rw [agreement_avg, if_pos]
      linarith
    have habsR : (340 : ℝ) ≤ |((b1 - b2 : ℚ) : ℝ)| := by
      rw [← Rat.cast_abs]
      exact_mod_cast hge
    have habsR' : |((b1 - b2 : ℚ) : ℝ)| < 360 := by
      rw [← Rat.cast_abs]
      exact_mod_cast habs
    have hc : Real.cos (((b1 : ℝ) * (Real.pi / 180) - (b2 : ℝ) * (Real.pi / 180)) / 2) < 0 := by
      rw [← Real.cos_abs]
      have habsh : |(((b1 : ℝ) * (Real.pi / 180) - (b2 : ℝ) * (Real.pi / 180)) / 2)| =
          |((b1 - b2 : ℚ) : ℝ)| * (Real.pi / 360) := by
        rw [hhalfdiff, abs_mul, abs_of_pos (show (0 : ℝ) < Real.pi / 360 by positivity)]
      apply Real.cos_neg_of_pi_div_two_lt_of_lt
      · rw [habsh]
        nlinarith
      · rw [habsh]
        nlinarith
    obtain ⟨k, hk⟩ := arg_mean_vec_neg ((b1 : ℝ) * (Real.pi / 180))
      ((b2 : ℝ) * (Real.pi / 180)) hc
    rw [hk, hhalfsum]
    have hdeg' : ((((b1 + b2) / 2 : ℚ) : ℝ) * (Real.pi / 180) + Real.pi + 2 * Real.pi * k) *
        (180 / Real.pi) = (((b1 + b2) / 2 + 180 : ℚ) : ℝ) + 360 * k := by
      push_cast
      field_simp
      ring
    rw [hdeg', rfmod_add_int_mul, rfmod_cast, hcode]

/-- C3: when both passes succeed with bearings in `[0, 360)` that agree
within 20° of angular distance, `verify_orientation_passes` returns
category `agreement`, confidence `high`, and as final bearing the
1-decimal rounding of a value equal to the circular mean
(`atan2(mean_sin, mean_cos)` form, normalized to `[0, 360)`) of the two
bearings: the arithmetic mean with +180° wraparound correction computed by
the code coincides with the circular mean on this domain. -/
theorem verify_agreement_is_circular_mean (b1 b2 : ℚ) (c1 c2 : String)
    (h1 : 0 ≤ b1) (h1' : b1 < 360) (h2 : 0 ≤ b2) (h2' : b2 < 360)
    (hd : angular_distance b1 b2 ≤ 20) :
    verify_orientation_passes ⟨"success", b1, c1⟩ ⟨"success", b2, c2⟩ =
      ⟨round1 (agreement_avg b1 b2), "high", "agreement"⟩ ∧
    ((agreement_avg b1 b2 : ℚ) : ℝ) = circular_mean_degrees [b1, b2] := by
  constructor
  · simp [verify_orientation_passes, hd]
  · exact agreement_avg_eq_circular_mean b1 b2 h1 h1' h2 h2' hd

/-- C3 witness: bearings 355 and 5 agree (Δ = 10), and the final bearing is
0.0 — the circular mean — rather than the arithmetic mean 180. -/
theorem verify_agreement_is_circular_mean_witness :
    (verify_orientation_passes ⟨"success", 355, "high"⟩ ⟨"success", 5, "medium"⟩ =
      ⟨round1 (agreement_avg 355 5), "high", "agreement"⟩ ∧
     ((agreement_avg 355 5 : ℚ) : ℝ) = circular_mean_degrees [355, 5]) ∧
    round1 (agreement_avg 355 5) = 0 := by
  constructor
  · exact verify_agreement_is_circular_mean 355 5 "high" "medium"
      (by norm_num) (by norm_num) (by norm_num) (by norm_num)
      (by norm_num [angular_distance, qfmod, min_def])
  · norm_num [agreement_avg, qfmod, round1, roundHalfEven]

/-! ## `deduplicate_by_name` from `src/agents/orchestrator.py`

The items are pydantic models carrying an optional `name`; all remaining
model fields are abstracted into a single `data` payload, so that
`model_dump()` is the `(name, data)` pair and two dumps differ exactly when
the items differ. -/

/-- An item passed to `deduplicate_by_name`. -/
structure MItem where
  name : Option String
  data : ℤ
deriving DecidableEq

/-- `item.model_dump()`. -/
def MItem.model_dump (i : MItem) : Option String × ℤ := (i.name, i.data)

/-- `ExtractionConflict` from `src/schemas/building_spec.py`; the two `Any`
value fields carry model dumps here. -/
structure ExtractionConflict where
  field : String
  item_name : Option String
  source_extractor : String
  reported_value : Option String × ℤ
  conflicting_extractor : String
  conflicting_value : Option String × ℤ
  resolution : String

/-- The loop of `deduplicate_by_name` (orchestrator.py lines 1288-1312):
`seen` is the insertion-ordered dict (name → first item), `conflicts`
accumulates; at the end the dict's values are returned in insertion
order. -/
def deduplicate_by_name_loop (source : String) :
    List MItem → List (String × MItem) → List ExtractionConflict →
    List MItem × List ExtractionConflict
  | [], seen, conflicts => (seen.map (fun kv => kv.2), conflicts)
  | item :: rest, seen, conflicts =>
    match item.name with
    | none => deduplicate_by_name_loop source rest seen conflicts
    | some name =>
      match alookup name seen with
      | some existing =>
        if item.model_dump ≠ existing.model_dump then
          deduplicate_by_name_loop source rest seen (conflicts ++
            [⟨"array_item", some name, source, existing.model_dump, source,
              item.model_dump, "kept_first"⟩])
        else deduplicate_by_name_loop source rest seen conflicts
      | none => deduplicate_by_name_loop source rest (seen ++ [(name, item)]) conflicts

/-- `deduplicate_by_name(items, source)`. -/
def deduplicate_by_name (items : List MItem) (source : String) :
    List MItem × List ExtractionConflict :=
  deduplicate_by_name_loop source items [] []

/-- Reference rendering of the claim's conflict rule: walking the list with
the already-processed prefix at hand, each item whose name already occurred
earlier and whose dump differs from the FIRST earlier occurrence yields
exactly one `kept_first` conflict naming the same extractor twice. -/
def later_conflicts (source : String) : List MItem → List MItem → List ExtractionConflict
  | _, [] => []
  | prev, item :: rest =>
    (match item.name with
     | none => []
     | some name =>
       match prev.find? (fun j => j.name == some name) with
       | none => []
       | some first =>
         if item.model_dump ≠ first.model_dump then
           [⟨"array_item", some name, source, first.model_dump, source,
             item.model_dump, "kept_first"⟩]
         else []) ++ later_conflicts source (prev ++ [item]) rest

/-- Reference rendering of the claim's keep rule: first occurrence of each
name wins, nameless items are dropped. -/
def kept_first (seen_names : List String) : List MItem → List MItem
  | [] => []
  | item :: rest =>
    match item.name with
    | none => kept_first seen_names rest
    | some name =>
      if name ∈ seen_names then kept_first seen_names rest
      else item :: kept_first (seen_names ++ [name]) rest

/-- `alookup` over an appended association list. -/
theorem alookup_append (n : String) (l1 l2 : List (String × α)) :
    alookup n (l1 ++ l2) =
      match alookup n l1 with
      | some v => some v
      | none => alookup n l2 := by
  induction l1 with
  | nil => simp [alookup]
  | cons kv rest ih =>
    by_cases h : n = kv.1
    · simp [alookup, h]
    · simp [alookup, h, ih]

/-- `alookup` hits exactly the stored keys. -/
theorem alookup_isSome_iff (n : String) (l : List (String × α)) :
    (alookup n l).isSome ↔ n ∈ l.map Prod.fst := by
  induction l with
  | nil => simp [alookup]
  | cons kv rest ih =>
    by_cases h : n = kv.1
    · simp [alookup, h]
    · simp [alookup, h, ih]

/-- `find?` over a list extended on the right by one item. -/
theorem find?_append_singleton (prev : List MItem) (item : MItem) (n : String) :
    (prev ++ [item]).find? (fun j => j.name == some n) =
      match prev.find? (fun j => j.name == some n) with
      | some x => some x
      | none => if item.name == some n then some item else none := by
  induction prev with
  | nil =>
    cases h : (item.name == some n) <;> simp [List.find?_singleton, h]
  | cons a rest ih =>
    cases h : (a.name == some n) <;>
      simp only [List.cons_append, List.find?_cons, h, ih]

/-- The conflict accumulator of the dedup loop, characterized against the
first-occurrence rule: if `seen` is exactly the name-indexed view of the
already-processed prefix `prev`, the loop appends precisely the
`later_conflicts` of the remaining items. -/
theorem deduplicate_loop_conflicts (source : String) (l : List MItem) :
    ∀ (prev : List MItem) (seen : List (String × MItem))
      (conflicts : List ExtractionConflict),
    (∀ n, alookup n seen = prev.find? (fun j => j.name == some n)) →
    (deduplicate_by_name_loop source l seen conflicts).2 =
      conflicts ++ later_conflicts source prev l := by
  induction l with
  | nil =>
    intro prev seen conflicts hinv
    simp [deduplicate_by_name_loop, later_conflicts]
  | cons item rest ih =>
    intro prev seen conflicts hinv
    cases hn : item.name with
    | none =>
      have hpres : ∀ n, alookup n seen =
          (prev ++ [item]).find? (fun j => j.name == some n) := by
        intro n
        rw [find?_append_singleton, ← hinv n, hn]
        cases alookup n seen <;> simp
      simp only [deduplicate_by_name_loop, hn]
      rw [ih (prev ++ [item]) seen conflicts hpres]
      simp [later_conflicts, hn]
    | some name =>
      cases hs : alookup name seen with
      | some existing =>
        have hfind : prev.find? (fun j => j.name == some name) = some existing := by
          rw [← hinv name, hs]
        have hpres2 : ∀ n, alookup n seen =
            (prev ++ [item]).find? (fun j => j.name == some n) := by
          intro n
          rw [find?_append_singleton, ← hinv n]
          cases hsn : alookup n seen with
          | some x => simp
          | none =>
            by_cases hne : item.name == some n
            · rw [hn] at hne
              have heqn : name = n := by simpa using hne
              rw [← heqn] at hsn
              rw [hsn] at hs
              exact absurd hs (by simp)
            · simp [hne]
        simp only [deduplicate_by_name_loop, hn, hs]
        by_cases hdump : item.model_dump ≠ existing.model_dump
        · rw [if_pos hdump, ih (prev ++ [item]) seen _ hpres2]
          simp [later_conflicts, hn, hfind, hdump]
        · rw [if_neg hdump, ih (prev ++ [item]) seen _ hpres2]
          simp [later_conflicts, hn, hfind, hdump]
      | none =>
        have hfind : prev.find? (fun j => j.name == some name) = none := by
          rw [← hinv name, hs]
        have hpres2 : ∀ n, alookup n (seen ++ [(name, item)]) =
            (prev ++ [item]).find? (fun j => j.name == some n) := by
          intro n
          rw [find?_append_singleton, ← hinv n, alookup_append]
          cases hsn : alookup n seen with
          | some x => simp
          | none =>
            by_cases hne : n = name
            · subst hne
              simp [alookup, hn]
            · have hfalse : (item.name == some n) = false := by
                rw [hn]
                simpa using fun h => hne h.symm
              simp [alookup, hne, hfalse]
        simp only [deduplicate_by_name_loop, hn, hs]
        rw [ih (prev ++ [item]) (seen ++ [(name, item)]) conflicts hpres2]
        simp [later_conflicts, hn, hfind]

/-- The kept list of the dedup loop, characterized against the
first-occurrence rule. -/
theorem deduplicate_loop_kept (source : String) (l : List MItem) :
    ∀ (seen : List (String × MItem)) (conflicts : List ExtractionConflict),
    (deduplicate_by_name_loop source l seen conflicts).1 =
      seen.map (fun kv => kv.2) ++ kept_first (seen.map Prod.fst) l := by
  induction l with
  | nil =>
    intro seen conflicts
    simp [deduplicate_by_name_loop, kept_first]
  | cons item rest ih =>
    intro seen conflicts
    cases hn : item.name with
    | none =>
      simp only [deduplicate_by_name_loop, hn]
      rw [ih]
      simp [kept_first, hn]
    | some name =>
      cases hs : alookup name seen with
      | some existing =>
        have hmem : name ∈ seen.map Prod.fst := by
          rw [← alookup_isSome_iff, hs]
          rfl
        simp only [deduplicate_by_name_loop, hn, hs]
        by_cases hdump : item.model_dump ≠ existing.model_dump
        · rw [if_pos hdump, ih]
          simp [kept_first, hn, hmem]
        · rw [if_neg hdump, ih]
          simp [kept_first, hn, hmem]
      | none =>
        have hmem : name ∉ seen.map Prod.fst := by
          rw [← alookup_isSome_iff, hs]
          simp
        simp only [deduplicate_by_name_loop, hn, hs]
        rw [ih]
        simp [kept_first, hn, hmem]

/-- Filtering `kept_first` by a name yields the first matching occurrence
of the input (none if the name was already seen). -/
theorem kept_first_filter (n0 : String) (l : List MItem) :
    ∀ names : List String,
    (kept_first names l).filter (fun i => i.name == some n0) =
      if n0 ∈ names then [] else (l.filter (fun i => i.name == some n0)).take 1 := by
  induction l with
  | nil => intro names; simp [kept_first]
  | cons item rest ih =>
    intro names
    cases hn : item.name with
    | none =>
      have hne : (item.name == some n0) = false := by rw [hn]; rfl
      simp only [kept_first, hn, List.filter_cons, hne, Bool.false_eq_true, if_false]
      exact ih names
    | some name =>
      by_cases hmem : name ∈ names
      · simp only [kept_first, hn, if_pos hmem]
        rw [ih names]
        by_cases h0 : n0 ∈ names
        · simp [h0]
        · have hne : (item.name == some n0) = false := by
            rw [hn]
            simp only [beq_eq_false_iff_ne, ne_eq, Option.some.injEq]
            intro he
            exact h0 (he ▸ hmem)
          simp [h0, List.filter_cons, hne]
      · simp only [kept_first, hn, if_neg hmem]
        by_cases he : name = n0
        · subst he
          have htrue : (item.name == some name) = true := by rw [hn]; simp
          rw [List.filter_cons, List.filter_cons]
          simp only [htrue, if_true]
          rw [ih (names ++ [name])]
          have hmem' : name ∈ names ++ [name] := by simp
          simp [hmem', hmem]
        · have hne : (item.name == some n0) = false := by
            rw [hn]
            simpa using fun h => he h
          rw [List.filter_cons, List.filter_cons]
          simp only [hne, Bool.false_eq_true, if_false]
          rw [ih (names ++ [name])]
          have hiff : n0 ∈ names ++ [name] ↔ n0 ∈ names := by
            simp only [List.mem_append, List.mem_singleton]
            constructor
            · rintro (h | h)
              · exact h
              · exact absurd h.symm he
            · exact Or.inl
          by_cases h0 : n0 ∈ names
          · simp [h0, hiff.mpr h0]
          · have hno : n0 ∉ names ++ [name] := fun h => h0 (hiff.mp h)
            simp [h0, hno]

/-- Every kept item carries a name. -/
theorem kept_first_no_nameless (l : List MItem) :
    ∀ names : List String, ∀ i ∈ kept_first names l, i.name ≠ none := by
  induction l with
  | nil => intro names i hi; simp [kept_first] at hi
  | cons item rest ih =>
    intro names i hi
    cases hn : item.name with
    | none =>
      simp only [kept_first, hn] at hi
      exact ih names i hi
    | some name =>
      simp only [kept_first, hn] at hi
      by_cases hmem : name ∈ names
      · rw [if_pos hmem] at hi
        exact ih names i hi
      · rw [if_neg hmem] at hi
        rcases List.mem_cons.mp hi with rfl | hi
        · rw [hn]; simp
        · exact ih (names ++ [name]) i hi

/-- Every conflict produced by the first-occurrence rule has the claimed
shape. -/
theorem later_conflicts_shape (source : String) (l : List MItem) :
    ∀ prev : List MItem, ∀ c ∈ later_conflicts source prev l,
      c.field = "array_item" ∧ c.resolution = "kept_first" ∧
      c.source_extractor = source ∧ c.conflicting_extractor = source := by
  induction l with
  | nil => intro prev c hc; simp [later_conflicts] at hc
  | cons item rest ih =>
    intro prev c hc
    rw [later_conflicts] at hc
    rcases List.mem_append.mp hc with hc | hc
    · cases hn : item.name with
      | none => simp only [hn] at hc; simp at hc
      | some name =>
        simp only [hn] at hc
        cases hf : prev.find? (fun j => j.name == some name) with
        | none => simp only [hf] at hc; simp at hc
        | some first =>
          simp only [hf] at hc
          by_cases hd : item.model_dump ≠ first.model_dump
          · rw [if_pos hd] at hc
            rcases List.mem_singleton.mp hc with rfl
            exact ⟨rfl, rfl, rfl, rfl⟩
          · rw [if_neg hd] at hc
            simp at hc
    · exact ih (prev ++ [item]) c hc

/-- C7: `deduplicate_by_name` keeps exactly the first occurrence of each
name (nameless items are dropped silently), and produces exactly one
`kept_first` conflict — naming the same extractor as both source and
conflicting extractor — for each later occurrence whose dump differs from
the first occurrence of its name. -/
theorem deduplicate_by_name_spec (items : List MItem) (source : String) (n : String) :
    ((deduplicate_by_name items source).1.filter (fun i => i.name == some n) =
      (items.filter (fun i => i.name == some n)).take 1) ∧
    (∀ i ∈ (deduplicate_by_name items source).1, i.name ≠ none) ∧
    ((deduplicate_by_name items source).2 = later_conflicts source [] items) ∧
    (∀ c ∈ (deduplicate_by_name items source).2,
      c.field = "array_item" ∧ c.resolution = "kept_first" ∧
      c.source_extractor = source ∧ c.conflicting_extractor = source) := by
  have hkept : (deduplicate_by_name items source).1 = kept_first [] items := by
    rw [deduplicate_by_name, deduplicate_loop_kept]
    simp
  have hconf : (deduplicate_by_name items source).2 = later_conflicts source [] items := by
    rw [deduplicate_by_name, deduplicate_loop_conflicts source items [] [] []
      (fun n' => by simp [alookup])]
    simp
  refine ⟨?_, ?_, hconf, ?_⟩
  · rw [hkept, kept_first_filter]
    simp
  · intro i hi
    rw [hkept] at hi
    exact kept_first_no_nameless items [] i hi
  · intro c hc
    rw [hconf] at hc
    exact later_conflicts_shape source items [] c hc

/-- C7 witness: two walls named `"N Wall"` with differing data and one
nameless item — the first wall is kept, the nameless item is dropped, and
exactly one `kept_first` conflict names the `zones` extractor twice. -/
theorem deduplicate_by_name_spec_witness :
    (deduplicate_by_name
      [⟨some "N Wall", 100⟩, ⟨some "N Wall", 120⟩, ⟨none, 5⟩] "zones").1.filter
        (fun i => i.name == some "N Wall") =
      [⟨some "N Wall", 100⟩] ∧
    (deduplicate_by_name
      [⟨some "N Wall", 100⟩, ⟨some "N Wall", 120⟩, ⟨none, 5⟩] "zones").2 =
      [⟨"array_item", some "N Wall", "zones", (some "N Wall", 100), "zones",
        (some "N Wall", 120), "kept_first"⟩] := by
  have h := deduplicate_by_name_spec
    [⟨some "N Wall", 100⟩, ⟨some "N Wall", 120⟩, ⟨none, 5⟩] "zones" "N Wall"
  refine ⟨?_, ?_⟩
  · rw [h.1]
    rfl
  · rw [h.2.2.1]
    rfl

/-! ## `src/verifier/compare.py`: text normalization and helpers

Python strings are manipulated through their character lists.  `str.strip`
/ `\s` are modelled over the ASCII whitespace characters and
`str.lower` over ASCII letters; the evaluation data is ASCII. -/

/-- ASCII whitespace (the characters Python's `\s` and `str.strip` treat
as space in the ASCII range). -/
def isPySpace (c : Char) : Bool :=
  c == ' ' || c == '\t' || c == '\n' || c == '\r' || c == Char.ofNat 11 || c == Char.ofNat 12

/-- `str.strip()`. -/
def pyStrip (cs : List Char) : List Char :=
  ((cs.dropWhile isPySpace).reverse.dropWhile isPySpace).reverse

/-- Python substring containment `needle in hay`. -/
def containsSub : List Char → List Char → Bool
  | [], needle => needle.isEmpty
  | c :: t, needle => needle.isPrefixOf (c :: t) || containsSub t needle

/-- `sub in s` on strings. -/
def strContains (s sub : String) : Bool := containsSub s.toList sub.toList

/-- The characters of the trailing-punctuation class `[.,;:]`. -/
def isTrailPunct (c : Char) : Bool := c == '.' || c == ',' || c == ';' || c == ':'

/-- `re.sub(r'[.,;:]+$', '', text)`: drop the maximal trailing run of
punctuation. -/
def stripTrailingPunct (cs : List Char) : List Char :=
  (cs.reverse.dropWhile isTrailPunct).reverse

/-- Dropping a prefix cannot lengthen a list. -/
theorem length_dropWhile_le {α : Type} (p : α → Bool) (l : List α) :
    (l.dropWhile p).length ≤ l.length :=
  (List.dropWhile_sublist _).length_le

/-- Length of the match of `\s*\([^)]*\)\s*` anchored at the start of the
list (0 when there is no match here: the regex requires an opening paren
after optional spaces and a closing paren later). -/
def parenMatchLen (cs : List Char) : ℕ :=
  let sp := cs.takeWhile isPySpace
  let rest := cs.dropWhile isPySpace
  match rest with
  | '(' :: inner =>
    let nonr := inner.takeWhile (fun ch => !(ch == ')'))
    let after := inner.dropWhile (fun ch => !(ch == ')'))
    match after with
    | ')' :: tail2 => sp.length + 1 + nonr.length + 1 + (tail2.takeWhile isPySpace).length
    | _ => 0
  | _ => 0

/-- `re.sub(r'\s*\([^)]*\)\s*', '', text)`: remove every parenthetical
(with surrounding whitespace), scanning left to right. -/
def removeParens (cs : List Char) : List Char :=
  match cs with
  | [] => []
  | c :: t =>
    if _h : 0 < parenMatchLen (c :: t) then removeParens ((c :: t).drop (parenMatchLen (c :: t)))
    else c :: removeParens t
termination_by cs.length
decreasing_by
  · simp only [List.length_drop, List.length_cons]
    omega
  · simp

/-- `re.sub(r'\s+', ' ', text)`: collapse runs of whitespace to a single
space. -/
def collapseWs : List Char → List Char
  | [] => []
  | c :: t =>
    if isPySpace c then ' ' :: collapseWs (t.dropWhile isPySpace) else c :: collapseWs t
termination_by cs => cs.length
decreasing_by
  · have := length_dropWhile_le isPySpace t
    simp only [List.length_cons]
    omega
  · simp

/-- `normalize_text` from compare.py (lines 9-31): strip + lowercase, drop
trailing punctuation, in name-like fields drop parentheticals, collapse
whitespace.  The guard `if field_path and (...)` treats a `None` or empty
path as falsy. -/
def normalize_text (text : String) (field_path : Option String) : String :=
  let t1 := (pyStrip text.toList).map Char.toLower
  let t2 := stripTrailingPunct t1
  let t3 :=
    if (match field_path with
        | some p => !(p == "") &&
            (strContains p "name" || strContains p "window" || strContains p "wall")
        | none => false)
    then removeParens t2 else t2
  let t4 := pyStrip (collapseWs t3)
  String.mk t4

/-- `re.sub(r'\[\d+\]', '[*]', path)`: replace every bracketed digit run
by `[*]`. -/
def normalizeIdx : List Char → List Char
  | [] => []
  | c :: t =>
    if c == '[' then
      match h : t.dropWhile Char.isDigit with
      | ']' :: tail2 =>
        if (t.takeWhile Char.isDigit).isEmpty then c :: normalizeIdx t
        else '[' :: '*' :: ']' :: normalizeIdx tail2
      | _ => c :: normalizeIdx t
    else c :: normalizeIdx t
termination_by cs => cs.length
decreasing_by
  all_goals simp only [List.length_cons]
  all_goals try omega
  · have h1 := length_dropWhile_le Char.isDigit t
    rw [h] at h1
    simp only [List.length_cons] at h1
    omega

/-- `is_non_extractable` from compare.py (lines 50-75): exact match,
`[*]`-normalized match, and `prefix.*` wildcard match against the
exclusion set. -/
def is_non_extractable (field_path : String) (exclusion_set : List String) : Bool :=
  exclusion_set.any (fun p => p == field_path) ||
  exclusion_set.any (fun p => p.toList == normalizeIdx field_path.toList) ||
  exclusion_set.any (fun pat =>
    (".*".toList.isSuffixOf pat.toList) &&
    ((pat.toList.dropLast.dropLast ++ ['.']).isPrefixOf field_path.toList))

/-! ## `src/verifier/compare.py`: tolerances and value coercion -/

/-- A `{percent, absolute}` tolerance bucket from the mapping config. -/
structure Tol where
  percent : ℚ
  absolute : ℚ
deriving DecidableEq

/-- `field_path.split(".")[-1]`. -/
def lastSegment (path : String) : String :=
  String.mk ((path.toList.reverse.takeWhile (fun c => !(c == '.'))).reverse)

/-- `get_tolerance_for_field` (compare.py lines 117-126): the first
category one of whose field substrings occurs in the final path segment
wins; `tolerances.get(category, tolerances["default"])` evaluates
`tolerances["default"]` eagerly, so a missing `default` key raises
(modelled as `none`) on every query. -/
def get_tolerance_for_field (field_path : String) (tolerances : List (String × Tol))
    (tolerance_categories : List (String × List String)) : Option Tol :=
  let field_name := lastSegment field_path
  match tolerance_categories.find?
      (fun cat => cat.2.any (fun f => strContains field_name f)) with
  | some cat =>
    match alookup "default" tolerances with
    | some d => some ((alookup cat.1 tolerances).getD d)
    | none => none
  | none => alookup "default" tolerances

/-- `isinstance(v, (int, float))` — Python `bool` is an `int` subclass and
passes this test. -/
def JValue.isNumericPy : JValue → Bool
  | .num _ => true
  | .bool _ => true
  | _ => false

/-- The numeric value of a Python number (`True == 1`, `False == 0`). -/
def JValue.pyNumVal : JValue → ℚ
  | .num q => q
  | .bool b => if b then 1 else 0
  | _ => 0

/-- `isinstance(v, str)`. -/
def JValue.isStr : JValue → Bool
  | .str _ => true
  | _ => false

/-- `isinstance(v, bool)`. -/
def JValue.isBool : JValue → Bool
  | .bool _ => true
  | _ => false

/-- The payload of a string value. -/
def JValue.strVal : JValue → String
  | .str s => s
  | _ => ""

/-- `float(s)` on a string: optional surrounding whitespace and sign,
decimal digits with optional fraction and exponent.  CPython's `inf`,
`nan` and underscore-separator forms are not modelled; none occur in the
JSON data this code compares. -/
def parseFloatString (s : String) : Option ℚ :=
  let cs0 := pyStrip s.toList
  let sgn : ℚ := match cs0 with
    | '-' :: _ => -1
    | _ => 1
  let cs := match cs0 with
    | '-' :: t => t
    | '+' :: t => t
    | _ => cs0
  let ip := cs.takeWhile Char.isDigit
  let cs1 := cs.dropWhile Char.isDigit
  let fp := match cs1 with
    | '.' :: t => t.takeWhile Char.isDigit
    | _ => []
  let cs2 := match cs1 with
    | '.' :: t => t.dropWhile Char.isDigit
    | _ => cs1
  if ip.isEmpty && fp.isEmpty then none
  else
    let mantissa : ℚ := (digitsToNat ip : ℚ) + (digitsToNat fp : ℚ) / ((10 : ℚ) ^ fp.length)
    match cs2 with
    | [] => some (sgn * mantissa)
    | e :: t =>
      if e == 'e' || e == 'E' then
        let esgn : ℤ := match t with
          | '-' :: _ => -1
          | _ => 1
        let t1 := match t with
          | '-' :: t2 => t2
          | '+' :: t2 => t2
          | _ => t
        let ed := t1.takeWhile Char.isDigit
        let t2 := t1.dropWhile Char.isDigit
        if ed.isEmpty || !t2.isEmpty then none
        else some (sgn * mantissa * (10 : ℚ) ^ (esgn * (digitsToNat ed : ℤ)))
      else none

/-- `float(v)`: numbers pass through, booleans coerce, strings parse;
`None` and containers raise `TypeError` (modelled as `none`). -/
def pyFloat : JValue → Option ℚ
  | .num q => some q
  | .bool b => some (if b then 1 else 0)
  | .str s => parseFloatString s
  | _ => none

/-- Fractional decimal digits of `q ∈ [0, 1)`, up to `fuel` places. -/
def fracDigits : ℕ → ℚ → List Char
  | 0, _ => []
  | fuel + 1, q =>
    if q = 0 then []
    else
      let q10 := q * 10
      let d := (Rat.floor q10).toNat
      Char.ofNat (48 + d) :: fracDigits fuel (q10 - Rat.floor q10)

/-- Approximate `str()` of a JSON number: integers print without a decimal
point (JSON integers are Python `int`s), other values print up to 17
fractional digits — exact for the terminating decimals occurring in this
data; CPython's shortest-round-trip float repr is not modelled further. -/
def decimalRepr (q : ℚ) : String :=
  if q.den = 1 then toString q.num
  else
    (if q < 0 then "-" else "") ++ toString (Rat.floor |q|) ++ "." ++
      String.mk (fracDigits 17 (|q| - Rat.floor |q|))

/-- `", "`-joined concatenation. -/
def joinComma : List String → String
  | [] => ""
  | [x] => x
  | x :: rest => x ++ ", " ++ joinComma rest

mutual

/-- Approximate `repr(v)` for a JSON value.  Dict contents are elided: no
flattened leaf is a dict, so that case is unreachable from the comparison
flow. -/
def pyRepr : JValue → String
  | .null => "None"
  | .bool true => "True"
  | .bool false => "False"
  | .num q => decimalRepr q
  | .str s => "'" ++ s ++ "'"
  | .arr xs => "[" ++ joinComma (pyReprList xs) ++ "]"
  | .obj _ => "\x7b...\x7d"

/-- reprs of the elements of a list value. -/
def pyReprList : List JValue → List String
  | [] => []
  | x :: rest => pyRepr x :: pyReprList rest

end

/-- `str(v)` (`str` of a container uses the repr of its elements). -/
def pyStrOf : JValue → String
  | .str s => s
  | v => pyRepr v

/-- A value stored in an association list is smaller than the list. -/
theorem alookup_sizeOf_lt (k : String) (l : List (String × JValue)) (v : JValue)
    (h : alookup k l = some v) : sizeOf v < sizeOf l := by
  induction l with
  | nil => simp [alookup] at h
  | cons kv rest ih =>
    rw [alookup] at h
    by_cases he : k = kv.1
    · rw [if_pos he] at h
      obtain rfl : kv.2 = v := by simpa using h
      rcases kv with ⟨k', v⟩
      simp
      omega
    · rw [if_neg he] at h
      have := ih h
      rcases kv with ⟨k', w⟩
      simp
      omega

mutual

/-- Python `==` across JSON values.  Numbers and booleans compare by
numeric value (`1 == True` in Python); lists compare pointwise; dicts
compare as key→value maps. -/
def pyEq (a b : JValue) : Bool :=
  if a.isNumericPy && b.isNumericPy then decide (a.pyNumVal = b.pyNumVal)
  else match a, b with
    | .null, .null => true
    | .str x, .str y => x == y
    | .arr xs, .arr ys => pyEqList xs ys
    | .obj xs, .obj ys => xs.length == ys.length && pyEqObj xs ys
    | _, _ => false
termination_by sizeOf a + sizeOf b
decreasing_by
  all_goals simp
  all_goals omega

/-- Pointwise list equality. -/
def pyEqList : List JValue → List JValue → Bool
  | [], [] => true
  | x :: xs, y :: ys => pyEq x y && pyEqList xs ys
  | _, _ => false
termination_by xs ys => sizeOf xs + sizeOf ys
decreasing_by
  all_goals simp
  all_goals omega

/-- One-sided dict-value comparison (with the length check above this
agrees with Python dict equality for duplicate-free keys). -/
def pyEqObj : List (String × JValue) → List (String × JValue) → Bool
  | [], _ => true
  | (k, v) :: rest, ys =>
    (match h : alookup k ys with
     | some w => pyEq v w
     | none => false) && pyEqObj rest ys
termination_by rest ys => sizeOf rest + sizeOf ys
decreasing_by
  all_goals simp
  all_goals try omega
  · have := alookup_sizeOf_lt k ys w h
    omega

end

/-- A numeric-or-boolean value is not a string. -/
theorem isStr_false_of_numeric (v : JValue) (h : v.isNumericPy = true) :
    v.isStr = false := by
  cases v <;> simp [JValue.isNumericPy, JValue.isStr] at h ⊢

/-- Rank of the pending coercion in `values_match`: each recursive call of
the source coerces `actual` into `expected`'s type, after which no further
coercion happens. -/
def coercionRank (expected actual : JValue) : ℕ :=
  if expected.isNumericPy && !actual.isNumericPy then 1
  else if expected.isStr && !actual.isStr then 1
  else 0

/-- `values_match` from compare.py (lines 129-163).  `none` models the
uncaught `KeyError` raised when the tolerance config has no `default`
bucket; the `float`/`str` coercion failures are caught by the source and
fall through to plain equality. -/
def values_match (expected actual : JValue) (field_path : String)
    (tolerances : List (String × Tol))
    (tolerance_categories : List (String × List String)) : Option Bool :=
  if expected.isNull && actual.isNull then some true
  else if expected.isNull || actual.isNull then some false
  else if hnum : expected.isNumericPy && actual.isNumericPy then
    match get_tolerance_for_field field_path tolerances tolerance_categories with
    | none => none
    | some tol =>
      let abs_diff := |expected.pyNumVal - actual.pyNumVal|
      let rel_diff := if expected.pyNumVal ≠ 0 then abs_diff / |expected.pyNumVal| else abs_diff
      some (decide (rel_diff ≤ tol.percent / 100 ∨ abs_diff ≤ tol.absolute))
  else if hstr : expected.isStr && actual.isStr then
    some (normalize_text expected.strVal (some field_path) ==
      normalize_text actual.strVal (some field_path))
  else if expected.isBool && actual.isBool then
    some (pyEq expected actual)
  else if hcoe1 : expected.isNumericPy then
    match pyFloat actual with
    | some q => values_match expected (.num q) field_path tolerances tolerance_categories
    | none => some (pyEq expected actual)
  else if hcoe2 : expected.isStr then
    values_match expected (.str (pyStrOf actual)) field_path tolerances tolerance_categories
  else some (pyEq expected actual)
termination_by coercionRank expected actual
decreasing_by
  · have hA : expected.isNumericPy = true := hcoe1
    have hActual : actual.isNumericPy = false := by
      cases hb : actual.isNumericPy with
      | false => rfl
      | true =>
        exact absurd (show (expected.isNumericPy && actual.isNumericPy) = true by
          rw [hA, hb]; rfl) hnum
    have hnq : (JValue.num q).isNumericPy = true := rfl
    simp [coercionRank, hA, hActual, isStr_false_of_numeric expected hA, hnq]
  · have hE : expected.isStr = true := hcoe2
    have hEnum : expected.isNumericPy = false := by
      cases hb : expected.isNumericPy with
      | false => rfl
      | true => rw [isStr_false_of_numeric expected hb] at hE; exact absurd hE (by simp)
    have hActual : actual.isStr = false := by
      cases hb : actual.isStr with
      | false => rfl
      | true =>
        exact absurd (show (expected.isStr && actual.isStr) = true by
          rw [hE, hb]; rfl) hstr
    have hsq : (JValue.str (pyStrOf actual)).isStr = true := rfl
    have hsq2 : (JValue.str (pyStrOf actual)).isNumericPy = false := rfl
    simp [coercionRank, hE, hEnum, hActual, hsq, hsq2]

/-- `type(v).__name__`, with Python `int`/`float` conflated into one
numeric type — the only place the source compares concrete types is
`classify_mismatch`, whose numeric case is decided before the type
comparison, so the conflation is unobservable. -/
def jtypePy : JValue → String
  | .null => "NoneType"
  | .bool _ => "bool"
  | .num _ => "float"
  | .str _ => "str"
  | .arr _ => "list"
  | .obj _ => "dict"

/-- The mismatch-classification block shared verbatim by `compare_fields`
(compare.py lines 302-313) and `compare_all_fields` (lines 236-246):
numeric-vs-numeric (including booleans, which satisfy
`isinstance(…, (int, float))`) is a `wrong_value`; any other pair of
distinct concrete types is a `format_error`; same type is `wrong_value`. -/
def classify_mismatch (expected actual : JValue) : String :=
  if expected.isNumericPy && actual.isNumericPy then "wrong_value"
  else if jtypePy expected ≠ jtypePy actual then "format_error"
  else "wrong_value"

/-! ## `flatten_dict`, `compare_fields` and `compare_all_fields` -/

/-- `result[path] = value` on an insertion-ordered dict: overwrite in
place, else append. -/
def dinsert (d : List (String × JValue)) (k : String) (v : JValue) :
    List (String × JValue) :=
  if (alookup k d).isSome then
    d.map (fun kv => if kv.1 == k then (k, v) else kv)
  else d ++ [(k, v)]

mutual

/-- The entry loop of `flatten_dict` (compare.py lines 98-114), threading
the result dict. -/
def flatten_entries : List (String × JValue) → String → List (String × JValue) →
    List (String × JValue)
  | [], _, result => result
  | (key, value) :: rest, pfx, result =>
    let path := if pfx == "" then key else pfx ++ "." ++ key
    flatten_entries rest pfx (flatten_value value path result)

/-- One value of `flatten_dict`: dicts recurse, lists enumerate, scalars
(and raw non-dict list elements) land in the result. -/
def flatten_value : JValue → String → List (String × JValue) → List (String × JValue)
  | .obj fields, path, result => flatten_entries fields path result
  | .arr elems, path, result => flatten_items elems path 0 result
  | v, path, result => dinsert result path v

/-- The list loop of `flatten_dict`: `path[i]` entries. -/
def flatten_items : List JValue → String → ℕ → List (String × JValue) →
    List (String × JValue)
  | [], _, _, result => result
  | item :: rest, path, i, result =>
    let ipath := path ++ "[" ++ toString i ++ "]"
    let result' :=
      match item with
      | .obj fields => flatten_entries fields ipath result
      | _ => dinsert result ipath item
    flatten_items rest path (i + 1) result'

end

/-- `flatten_dict(data, prefix="")`. -/
def flatten_dict (data : List (String × JValue)) (pfx : String) :
    List (String × JValue) :=
  flatten_entries data pfx []

/-- `d.get(k)` where a missing key yields Python `None` — indistinguishable
from a stored JSON null. -/
def pyGet (d : List (String × JValue)) (k : String) : JValue :=
  (alookup k d).getD .null

/-- `k in d`. -/
def containsKey (d : List (String × JValue)) (k : String) : Bool :=
  (alookup k d).isSome

/-- The ground-truth loop of `compare_fields` (compare.py lines 287-320). -/
def compare_gt_loop (ext_flat : List (String × JValue))
    (tolerances : List (String × Tol)) (tolerance_categories : List (String × List String))
    (non_extractable : List String) :
    List (String × JValue) → Option (List FieldDiscrepancy)
  | [] => some []
  | (gt_path, expected_value) :: rest =>
    if is_non_extractable gt_path non_extractable then
      compare_gt_loop ext_flat tolerances tolerance_categories non_extractable rest
    else
      let actual_value := pyGet ext_flat gt_path
      if actual_value.isNull then
        (compare_gt_loop ext_flat tolerances tolerance_categories non_extractable rest).map
          (fun ds => ⟨gt_path, expected_value, .null, "omission"⟩ :: ds)
      else
        match values_match expected_value actual_value gt_path tolerances
            tolerance_categories with
        | none => none
        | some true =>
          compare_gt_loop ext_flat tolerances tolerance_categories non_extractable rest
        | some false =>
          (compare_gt_loop ext_flat tolerances tolerance_categories non_extractable rest).map
            (fun ds => ⟨gt_path, expected_value, actual_value,
              classify_mismatch expected_value actual_value⟩ :: ds)

/-- The hallucination loop of `compare_fields` (compare.py lines 322-334):
key membership, not value nullness, decides presence on the ground-truth
side. -/
def compare_ext_loop (gt_flat : List (String × JValue)) (non_extractable : List String) :
    List (String × JValue) → List FieldDiscrepancy
  | [] => []
  | (ext_path, actual_value) :: rest =>
    if is_non_extractable ext_path non_extractable then
      compare_ext_loop gt_flat non_extractable rest
    else if containsKey gt_flat ext_path then
      compare_ext_loop gt_flat non_extractable rest
    else
      ⟨ext_path, .null, actual_value, "hallucination"⟩ ::
        compare_ext_loop gt_flat non_extractable rest

/-- `compare_fields` from compare.py, with the mapping config passed as
explicit tolerance/category/exclusion parameters. -/
def compare_fields (ground_truth extracted : List (String × JValue))
    (tolerances : List (String × Tol)) (tolerance_categories : List (String × List String))
    (non_extractable : List String) : Option (List FieldDiscrepancy) :=
  let gt_flat := flatten_dict ground_truth ""
  let ext_flat := flatten_dict extracted ""
  (compare_gt_loop ext_flat tolerances tolerance_categories non_extractable gt_flat).map
    (fun ds => ds ++ compare_ext_loop gt_flat non_extractable ext_flat)

/-- `FieldComparison` dataclass. -/
structure FieldComparison where
  field_path : String
  expected : JValue
  actual : JValue
  «matches» : Bool
  error_type : Option String

/-- Lexicographic character-list comparison (Python string `<`). -/
def charListLt : List Char → List Char → Bool
  | [], [] => false
  | [], _ :: _ => true
  | _ :: _, [] => false
  | a :: as_, b :: bs => if a < b then true else if b < a then false else charListLt as_ bs

/-- Python string `≤`. -/
def strLe (a b : String) : Bool := !(charListLt b.toList a.toList)

/-- Insertion into a sorted list of strings. -/
def insertSorted (x : String) : List String → List String
  | [] => [x]
  | y :: rest => if strLe x y then x :: y :: rest else y :: insertSorted x rest

/-- `sorted(...)` over unique strings (any correct sort of a
duplicate-free list equals Python's). -/
def sortStrings : List String → List String
  | [] => []
  | x :: rest => insertSorted x (sortStrings rest)

/-- The union loop of `compare_all_fields` (compare.py lines 200-256). -/
def compare_paths_loop (gt_flat ext_flat : List (String × JValue))
    (tolerances : List (String × Tol)) (tolerance_categories : List (String × List String))
    (non_extractable : List String) : List String → Option (List FieldComparison)
  | [] => some []
  | path :: rest =>
    if is_non_extractable path non_extractable then
      compare_paths_loop gt_flat ext_flat tolerances tolerance_categories non_extractable rest
    else
      let expected := pyGet gt_flat path
      let actual := pyGet ext_flat path
      if expected.isNull then
        (compare_paths_loop gt_flat ext_flat tolerances tolerance_categories
            non_extractable rest).map
          (fun cs => ⟨path, .null, actual, false, some "hallucination"⟩ :: cs)
      else if actual.isNull then
        (compare_paths_loop gt_flat ext_flat tolerances tolerance_categories
            non_extractable rest).map
          (fun cs => ⟨path, expected, .null, false, some "omission"⟩ :: cs)
      else
        match values_match expected actual path tolerances tolerance_categories with
        | none => none
        | some true =>
          (compare_paths_loop gt_flat ext_flat tolerances tolerance_categories
              non_extractable rest).map
            (fun cs => ⟨path, expected, actual, true, none⟩ :: cs)
        | some false =>
          (compare_paths_loop gt_flat ext_flat tolerances tolerance_categories
              non_extractable rest).map
            (fun cs => ⟨path, expected, actual, false,
              some (classify_mismatch expected actual)⟩ :: cs)

/-- `compare_all_fields` from compare.py: the sorted union of both key
sets, each classified. -/
def compare_all_fields (ground_truth extracted : List (String × JValue))
    (tolerances : List (String × Tol)) (tolerance_categories : List (String × List String))
    (non_extractable : List String) : Option (List FieldComparison) :=
  let gt_flat := flatten_dict ground_truth ""
  let ext_flat := flatten_dict extracted ""
  let all_paths := sortStrings ((gt_flat.map Prod.fst ++ ext_flat.map Prod.fst).eraseDups)
  compare_paths_loop gt_flat ext_flat tolerances tolerance_categories non_extractable all_paths

/-! ## Claim theorems: C4, C5 -/

/-- C4: for numeric values (nonzero expected), `values_match` succeeds
exactly when the relative difference is within `percent/100` or the
absolute difference is within `absolute`, for the tolerance selected by
`get_tolerance_for_field` (category substrings matched against the final
field-name segment); and a numeric-numeric mismatch is classified
`wrong_value`. -/
theorem values_match_numeric_tolerance (e a : ℚ) (field_path : String)
    (tolerances : List (String × Tol)) (tolerance_categories : List (String × List String))
    (t : Tol) (he : e ≠ 0)
    (ht : get_tolerance_for_field field_path tolerances tolerance_categories = some t) :
    ((values_match (.num e) (.num a) field_path tolerances tolerance_categories =
        some true) ↔
      (|e - a| / |e| ≤ t.percent / 100 ∨ |e - a| ≤ t.absolute)) ∧
    classify_mismatch (.num e) (.num a) = "wrong_value" := by
  constructor
  · rw [values_match]
    simp only [JValue.isNull, JValue.isNumericPy, JValue.pyNumVal, Bool.and_self,
      Bool.false_and, Bool.and_false, Bool.false_or, Bool.true_and, ht]
    simp [he]
  · simp [classify_mismatch, JValue.isNumericPy]

/-- C4 witness: the spec's concrete scenario — expected 1000.0 vs actual
1004.0 under the `area` tolerance `{percent: 0.5, absolute: 0.01}` matches
(relative diff 0.4%), while 1000.0 vs 1020.0 (2%) does not and is
classified `wrong_value`. -/
theorem values_match_numeric_tolerance_witness :
    values_match (.num 1000) (.num 1004) "walls[0].area"
      [("default", ⟨1/2, 1/100⟩), ("area", ⟨1/2, 1/100⟩)] [("area", ["area"])] =
      some true ∧
    values_match (.num 1000) (.num 1020) "walls[0].area"
      [("default", ⟨1/2, 1/100⟩), ("area", ⟨1/2, 1/100⟩)] [("area", ["area"])] ≠
      some true ∧
    classify_mismatch (.num 1000) (.num 1020) = "wrong_value" := by
  have h1 := values_match_numeric_tolerance 1000 1004 "walls[0].area"
    [("default", ⟨1/2, 1/100⟩), ("area", ⟨1/2, 1/100⟩)] [("area", ["area"])]
    ⟨1/2, 1/100⟩ (by norm_num) rfl
  have h2 := values_match_numeric_tolerance 1000 1020 "walls[0].area"
    [("default", ⟨1/2, 1/100⟩), ("area", ⟨1/2, 1/100⟩)] [("area", ["area"])]
    ⟨1/2, 1/100⟩ (by norm_num) rfl
  refine ⟨?_, ?_, h2.2⟩
  · apply h1.1.mpr
    left
    have habs : |(1000 : ℚ) - 1004| = 4 := by
      rw [show (1000 : ℚ) - 1004 = -4 by norm_num, abs_neg]
      norm_num [abs_of_nonneg]
    rw [habs]
    norm_num [abs_of_nonneg]
  · intro hc
    have hd := h2.1.mp hc
    have habs : |(1000 : ℚ) - 1020| = 20 := by
      rw [show (1000 : ℚ) - 1020 = -20 by norm_num, abs_neg]
      norm_num [abs_of_nonneg]
    rw [habs] at hd
    rcases hd with hd | hd
    · rw [show |(1000 : ℚ)| = 1000 by norm_num [abs_of_nonneg]] at hd
      norm_num at hd
    · norm_num at hd

/-- Helper for C5: a ground-truth path holding null is reported as an
omission by the ground-truth loop, whatever the extracted value —
`dict.get` cannot distinguish the stored null from a missing key. -/
theorem compare_gt_loop_null_mem (ext_flat : List (String × JValue))
    (tolerances : List (String × Tol)) (cats : List (String × List String))
    (excl : List String) (p : String) (l : List (String × JValue)) :
    ∀ ds : List FieldDiscrepancy,
    (p, JValue.null) ∈ l → is_non_extractable p excl = false →
    pyGet ext_flat p = JValue.null →
    compare_gt_loop ext_flat tolerances cats excl l = some ds →
    (⟨p, JValue.null, JValue.null, "omission"⟩ : FieldDiscrepancy) ∈ ds := by
  induction l with
  | nil => intro ds hmem; simp at hmem
  | cons kv rest ih =>
    intro ds hmem hexcl hext hrun
    rcases List.mem_cons.mp hmem with heq | hmem'
    · rw [← heq] at hrun
      simp only [compare_gt_loop] at hrun
      rw [if_neg (by rw [hexcl]; simp)] at hrun
      rw [if_pos (by rw [hext]; rfl)] at hrun
      obtain ⟨ds', hds', rfl⟩ := Option.map_eq_some'.mp hrun
      exact List.mem_cons_self _ _
    · cases kv with
      | mk q v =>
        simp only [compare_gt_loop] at hrun
        by_cases hq : is_non_extractable q excl = true
        · rw [if_pos (by rw [hq])] at hrun
          exact ih ds hmem' hexcl hext hrun
        · rw [if_neg (by simpa using hq)] at hrun
          by_cases hnull : (pyGet ext_flat q).isNull = true
          · rw [if_pos hnull] at hrun
            obtain ⟨ds', hds', rfl⟩ := Option.map_eq_some'.mp hrun
            exact List.mem_cons_of_mem _ (ih ds' hmem' hexcl hext hds')
          · rw [if_neg hnull] at hrun
            cases hvm : values_match v (pyGet ext_flat q) q tolerances cats with
            | none => rw [hvm] at hrun; exact absurd hrun (by simp)
            | some b =>
              cases b with
              | true =>
                rw [hvm] at hrun
                exact ih ds hmem' hexcl hext hrun
              | false =>
                rw [hvm] at hrun
                obtain ⟨ds', hds', rfl⟩ := Option.map_eq_some'.mp hrun
                exact List.mem_cons_of_mem _ (ih ds' hmem' hexcl hext hds')

/-- C5 counterexample: a path that is null in both records IS reported as
a discrepancy — `compare_fields` records an omission and
`compare_all_fields` a hallucination — because `dict.get` returns `None`
both for a stored null and for a missing key.  The claim's "records no
discrepancy (neither an omission nor a hallucination)" is false. -/
theorem compare_both_null_records_discrepancy :
    compare_fields [("a", JValue.null)] [("a", JValue.null)]
      [("default", ⟨1/2, 1/100⟩)] [] [] =
      some [⟨"a", JValue.null, JValue.null, "omission"⟩] ∧
    compare_all_fields [("a", JValue.null)] [("a", JValue.null)]
      [("default", ⟨1/2, 1/100⟩)] [] [] =
      some [⟨"a", JValue.null, JValue.null, false, some "hallucination"⟩] := by
  constructor
  · simp [compare_fields, flatten_dict, flatten_entries, flatten_value, dinsert, alookup,
      compare_gt_loop, compare_ext_loop, is_non_extractable, pyGet, containsKey,
      JValue.isNull]
  · simp [compare_all_fields, flatten_dict, flatten_entries, flatten_value, dinsert, alookup,
      compare_paths_loop, is_non_extractable, pyGet, sortStrings, insertSorted,
      List.eraseDups, JValue.isNull]

/-- C5 amended: `values_match` itself does treat null-null as a match, but
the comparison never reaches it: a field path carrying null in both
flattened records is reported by `compare_fields` as an omission (the
extracted-side `.get` cannot distinguish a stored null from a missing
path). -/
theorem compare_fields_null_is_omission (gt ext : List (String × JValue))
    (tolerances : List (String × Tol)) (tolerance_categories : List (String × List String))
    (excl : List String) (p : String) (ds : List FieldDiscrepancy)
    (hp : (p, JValue.null) ∈ flatten_dict gt "")
    (hexcl : is_non_extractable p excl = false)
    (hext : pyGet (flatten_dict ext "") p = JValue.null)
    (hrun : compare_fields gt ext tolerances tolerance_categories excl = some ds) :
    values_match JValue.null JValue.null p tolerances tolerance_categories = some true ∧
    (⟨p, JValue.null, JValue.null, "omission"⟩ : FieldDiscrepancy) ∈ ds := by
  constructor
  · rw [values_match]
    rw [if_pos (show (JValue.null.isNull && JValue.null.isNull) = true from rfl)]
  · simp only [compare_fields] at hrun
    obtain ⟨ds0, hds0, rfl⟩ := Option.map_eq_some'.mp hrun
    exact List.mem_append_left _
      (compare_gt_loop_null_mem _ tolerances tolerance_categories excl p _ ds0
        hp hexcl hext hds0)

/-- C5 witness: the amended theorem applied to the concrete both-null
record. -/
theorem compare_fields_null_is_omission_witness :
    values_match JValue.null JValue.null "a" [("default", ⟨1/2, 1/100⟩)] [] = some true ∧
    (⟨"a", JValue.null, JValue.null, "omission"⟩ : FieldDiscrepancy) ∈
      [(⟨"a", JValue.null, JValue.null, "omission"⟩ : FieldDiscrepancy)] := by
  apply compare_fields_null_is_omission [("a", JValue.null)] [("a", JValue.null)]
    [("default", ⟨1/2, 1/100⟩)] [] [] "a"
  · simp [flatten_dict, flatten_entries, flatten_value, dinsert, alookup]
  · rfl
  · simp [flatten_dict, flatten_entries, flatten_value, dinsert, alookup, pyGet]
  · simp [compare_fields, flatten_dict, flatten_entries, flatten_value, dinsert, alookup,
      compare_gt_loop, compare_ext_loop, is_non_extractable, pyGet, containsKey,
      JValue.isNull]

/-! ## `src/schemas/takeoff_spec.py` and `src/schemas/building_spec.py`

The pydantic models, with `Optional[float]` as `Option ℚ`, `Optional[int]`
as `Option ℤ` and required fields carried directly.  Range validators
(e.g. `azimuth: ge=0, lt=360`) are not baked into the types; the C9
theorem carries them as hypotheses. -/

/-- `FenestrationEntry`. -/
structure FenestrationEntry where
  name : String
  fenestration_type : Option String
  status : Option String
  height : Option ℚ
  width : Option ℚ
  area : Option ℚ
  multiplier : ℤ
  u_factor : Option ℚ
  shgc : Option ℚ
  exterior_shade : Option String
  overhang_depth : Option ℚ

/-- `OpaqueDoorEntry`. -/
structure OpaqueDoorEntry where
  name : String
  door_type : Option String
  status : Option String
  area : Option ℚ
  u_factor : Option ℚ

/-- `OrientationWall`. -/
structure OrientationWall where
  gross_wall_area : Option ℚ
  net_wall_area : Option ℚ
  azimuth : Option ℚ
  construction_type : Option String
  framing_factor : Option ℚ
  status : Option String
  fenestration : List FenestrationEntry
  opaque_doors : List OpaqueDoorEntry

/-- `OrientationWall.total_fenestration_area`:
`sum((f.area or 0) * f.multiplier)`. -/
def OrientationWall.total_fenestration_area (w : OrientationWall) : ℚ :=
  (w.fenestration.map (fun f => (f.area.getD 0) * (f.multiplier : ℚ))).sum

/-- `OrientationWall.total_door_area`: `sum(d.area or 0)`. -/
def OrientationWall.total_door_area (w : OrientationWall) : ℚ :=
  (w.opaque_doors.map (fun d => d.area.getD 0)).sum

/-- `HouseWalls`. -/
structure HouseWalls where
  north : Option OrientationWall
  east : Option OrientationWall
  south : Option OrientationWall
  west : Option OrientationWall
  additional_walls : List OrientationWall

/-- `HouseWalls.get_all_walls`: the cardinal walls that are present, in
N/E/S/W order, then the additional walls labelled `wall_i`. -/
def HouseWalls.get_all_walls (hw : HouseWalls) : List (String × OrientationWall) :=
  (match hw.north with | some w => [("north", w)] | none => []) ++
  (match hw.east with | some w => [("east", w)] | none => []) ++
  (match hw.south with | some w => [("south", w)] | none => []) ++
  (match hw.west with | some w => [("west", w)] | none => []) ++
  (hw.additional_walls.enum.map (fun p => ("wall_" ++ toString p.1, p.2)))

/-- `ConditionedZone`. -/
structure ConditionedZone where
  name : String
  floor_area : Option ℚ
  ceiling_height : Option ℚ
  volume : Option ℚ
  stories : ℤ
  exterior_wall_area : Option ℚ
  ceiling_below_attic_area : Option ℚ
  cathedral_ceiling_area : Option ℚ
  slab_floor_area : Option ℚ
  exterior_floor_area : Option ℚ

/-- `UnconditionedZone`. -/
structure UnconditionedZone where
  name : String
  zone_subtype : Option String
  floor_area : Option ℚ
  volume : Option ℚ

/-- `ThermalBoundary` (the `total_conditioned_floor_area` aggregate is not
read by the transform). -/
structure ThermalBoundary where
  conditioned_zones : List ConditionedZone
  unconditioned_zones : List UnconditionedZone
  total_conditioned_floor_area : Option ℚ

/-- `CeilingEntry`. -/
structure CeilingEntry where
  name : String
  ceiling_type : Option String
  zone : Option String
  status : Option String
  area : Option ℚ
  orientation : Option ℚ
  roof_pitch : Option ℚ
  roof_tilt : Option ℚ
  construction_type : Option String
  framing_factor : Option ℚ
  roof_reflectance : Option ℚ
  roof_emittance : Option ℚ

/-- `SlabEntry`. -/
structure SlabEntry where
  name : String
  zone : Option String
  status : Option String
  area : Option ℚ
  perimeter : Option ℚ
  edge_insulation_r_value : Option ℚ
  carpeted_fraction : Option ℚ
  heated : Bool

/-- `HVACSystemEntry`. -/
structure HVACSystemEntry where
  name : String
  system_type : Option String
  status : Option String
  heating_type : Option String
  hspf : Option ℚ
  afue : Option ℚ
  heating_capacity : Option ℚ
  cooling_type : Option String
  seer2 : Option ℚ
  eer2 : Option ℚ
  cooling_capacity : Option ℚ
  ducted : Option Bool
  duct_location : Option String
  duct_leakage_percent : Option ℚ
  duct_r_value : Option ℚ

/-- `DHWSystem`. -/
structure DHWSystem where
  name : String
  system_type : Option String
  status : Option String
  fuel : Option String
  tank_volume : Option ℚ
  energy_factor : Option ℚ
  input_rating : Option ℚ
  input_rating_units : Option String
  recovery_efficiency : Option ℚ
  location : Option String

/-- `TakeoffProjectInfo`. -/
structure TakeoffProjectInfo where
  run_id : Option String
  run_title : Option String
  run_number : Option ℤ
  run_scope : Option String
  address : Option String
  city : Option String
  climate_zone : Option ℤ
  standards_version : Option String
  fuel_type : Option String
  house_type : Option String
  dwelling_units : Option ℤ
  stories : Option ℤ
  bedrooms : Option ℤ
  front_orientation : Option ℚ
  orientation_confidence : Option String
  orientation_verification : Option String
  all_orientations : Option Bool
  conditioned_floor_area : Option ℚ
  window_area : Option ℚ
  window_to_floor_ratio : Option ℚ
  exterior_wall_area : Option ℚ
  attached_garage : Bool

/-- `TakeoffSpec` (uncertainty flags, assumptions and extraction notes are
not read by the transform and are omitted). -/
structure TakeoffSpec where
  project : TakeoffProjectInfo
  house_walls : HouseWalls
  thermal_boundary : ThermalBoundary
  ceilings : List CeilingEntry
  slab_floors : List SlabEntry
  hvac_systems : List HVACSystemEntry
  dhw_systems : List DHWSystem

/-- `ProjectInfo` (building_spec.py). -/
structure ProjectInfo where
  run_id : Option String
  run_title : Option String
  run_number : Option ℤ
  run_scope : Option String
  address : Option String
  city : Option String
  climate_zone : Option ℤ
  standards_version : Option String
  all_orientations : Option Bool
  fuel_type : Option String
  house_type : Option String
  dwelling_units : Option ℤ
  stories : Option ℤ
  bedrooms : Option ℤ
  attached_garage : Option Bool
  front_orientation : Option ℚ
  orientation_confidence : Option String
  orientation_verification : Option String

/-- `EnvelopeInfo` (building_spec.py). -/
structure EnvelopeInfo where
  conditioned_floor_area : Option ℚ
  addition_conditioned_floor_area : Option ℚ
  window_area : Option ℚ
  window_to_floor_ratio : Option ℚ
  fenestration_u_factor : Option ℚ
  exterior_wall_area : Option ℚ
  underground_wall_area : Option ℚ
  slab_floor_area : Option ℚ
  exposed_slab_floor_area : Option ℚ
  below_grade_floor_area : Option ℚ
  exposed_below_grade_floor_area : Option ℚ
  pv_credit_available : Option Bool
  pv_generation_max_credit : Option ℚ
  credit_available_for_pv : Option ℚ
  final_pv_credit : Option ℚ
  zonal_control : Option Bool
  infiltration_ach50 : Option ℚ
  infiltration_cfm50 : Option ℚ
  quality_insulation_installation : Option Bool

/-- `ZoneInfo` (building_spec.py). -/
structure ZoneInfo where
  name : String
  zone_type : Option String
  status : Option String
  floor_area : Option ℚ
  ceiling_height : Option ℚ
  stories : Option ℤ
  volume : Option ℚ
  exterior_wall_area : Option ℚ
  exterior_wall_door_area : Option ℚ
  ceiling_below_attic_area : Option ℚ
  cathedral_ceiling_area : Option ℚ
  slab_floor_area : Option ℚ
  exterior_floor_area : Option ℚ

/-- `WallComponent` (building_spec.py). -/
structure WallComponent where
  name : String
  zone : Option String
  status : Option String
  construction_type : Option String
  orientation : Option ℚ
  area : Option ℚ
  window_area : Option ℚ
  door_area : Option ℚ
  tilt : Option ℚ
  framing_factor : Option ℚ

/-- `WallConstruction` (building_spec.py; the transform emits none). -/
structure WallConstruction where
  name : String
  construction_type : Option String
  cavity_r_value : Option ℚ
  total_thickness : Option ℚ
  winter_design_u_value : Option ℚ
  layers : Option (List String)

/-- `WindowComponent` (building_spec.py). -/
structure WindowComponent where
  name : String
  wall : Option String
  status : Option String
  azimuth : Option ℚ
  height : Option ℚ
  width : Option ℚ
  multiplier : Option ℤ
  area : Option ℚ
  u_factor : Option ℚ
  shgc : Option ℚ
  exterior_shade : Option String

/-- `CeilingComponent` (building_spec.py). -/
structure CeilingComponent where
  name : String
  zone : Option String
  status : Option String
  construction_type : Option String
  orientation : Option ℚ
  area : Option ℚ
  roof_rise : Option ℚ
  roof_pitch : Option ℚ
  roof_tilt : Option ℚ
  roof_reflectance : Option ℚ
  roof_emittance : Option ℚ
  framing_factor : Option ℚ

/-- `CeilingConstruction` (building_spec.py; the transform emits none). -/
structure CeilingConstruction where
  name : String
  construction_type : Option String
  cavity_r_value : Option ℚ
  total_thickness : Option ℚ
  winter_design_u_value : Option ℚ
  layers : Option (List String)

/-- `SlabFloor` (building_spec.py). -/
structure SlabFloor where
  name : String
  zone : Option String
  status : Option String
  area : Option ℚ
  perimeter : Option ℚ
  edge_insulation_r_value : Option ℚ
  carpeted_fraction : Option ℚ
  heated : Option Bool

/-- `WaterHeater` (building_spec.py). -/
structure WaterHeater where
  name : String
  fuel : Option String
  tank_type : Option String
  volume : Option ℚ
  energy_factor : Option ℚ
  input_rating : Option ℚ
  input_rating_units : Option String
  interior_insulation_r_value : Option ℚ
  exterior_insulation_r_value : Option ℚ
  standby_loss : Option ℚ
  tank_location : Option String
  rated_flow : Option ℚ
  first_hour_rating : Option ℚ
  recovery_efficiency : Option ℚ

/-- `WaterHeatingSystem` (building_spec.py). -/
structure WaterHeatingSystem where
  name : String
  status : Option String
  system_type : Option String
  water_heaters : List WaterHeater

/-- `HeatPumpHeating` (building_spec.py). -/
structure HeatPumpHeating where
  system_type : Option String
  hspf : Option ℚ
  capacity_47 : Option ℚ
  capacity_17 : Option ℚ
  auxiliary_heating_capacity : Option ℚ
  ducted : Option Bool

/-- `HeatPumpCooling` (building_spec.py). -/
structure HeatPumpCooling where
  system_type : Option String
  seer2 : Option ℚ
  eer2 : Option ℚ
  cfm_per_ton : Option ℚ
  ac_charge : Option String
  ducted : Option Bool

/-- `DistributionSystem` (building_spec.py). -/
structure DistributionSystem where
  name : String
  system_type : Option String
  percent_leakage : Option ℚ
  insulation_r_value : Option ℚ
  supply_area : Option ℚ
  supply_diameter : Option ℚ
  return_area : Option ℚ
  return_diameter : Option ℚ
  bypass_duct : Option Bool

/-- `HVACSystem` (building_spec.py). -/
structure HVACSystem where
  name : String
  status : Option String
  system_type : Option String
  heating : Option HeatPumpHeating
  cooling : Option HeatPumpCooling
  distribution : Option DistributionSystem

/-- `ExtractionStatus` (building_spec.py). -/
structure ExtractionStatus where
  domain : String
  status : String
  error : Option String
  retry_count : ℤ
  items_extracted : ℤ

/-- `BuildingSpec` (building_spec.py). -/
structure BuildingSpec where
  project : ProjectInfo
  envelope : EnvelopeInfo
  zones : List ZoneInfo
  walls : List WallComponent
  wall_constructions : List WallConstruction
  windows : List WindowComponent
  ceilings : List CeilingComponent
  ceiling_constructions : List CeilingConstruction
  slab_floors : List SlabFloor
  hvac_systems : List HVACSystem
  water_heating_systems : List WaterHeatingSystem
  extraction_status : List (String × ExtractionStatus)
  conflicts : List ExtractionConflict

/-! ## `src/schemas/transform.py`

`transform_takeoff_to_building_spec` and its helpers.  The Python helpers
carry a leading underscore (`_transform_wall`, …); the embeddings drop it.
Fields the Python constructor call omits take the pydantic default recorded
in building_spec.py (`None`, `0.0`, or the empty list). -/

/-- `ORIENTATION_TO_WALL_NAME` (insertion-ordered dict as an assoc list). -/
def ORIENTATION_TO_WALL_NAME : List (String × String) :=
  [("north", "N Wall"), ("east", "E Wall"), ("south", "S Wall"), ("west", "W Wall")]

/-- `ORIENTATION_TO_AZIMUTH`. -/
def ORIENTATION_TO_AZIMUTH : List (String × ℚ) :=
  [("north", 0), ("east", 90), ("south", 180), ("west", 270)]

/-- One step of Python `str.title()`: upper-case an alphabetic character that
does not follow an alphabetic character, lower-case the rest. -/
def pyTitleGo : Bool → List Char → List Char
  | _, [] => []
  | prevAlpha, c :: rest =>
    if c.isAlpha then
      (if prevAlpha then c.toLower else c.toUpper) :: pyTitleGo true rest
    else
      c :: pyTitleGo false rest

/-- Python `str.title()` (ASCII). -/
def pyTitle (s : String) : String := ⟨pyTitleGo false s.toList⟩

/-- Python truthiness of an `Optional[float]`: `None` and `0.0` are falsy. -/
def pyTruthyQ : Option ℚ → Bool
  | none => false
  | some q => !(q == 0)

/-- `ORIENTATION_TO_WALL_NAME.get(orientation, f"{orientation.title()} Wall")`:
the expression is written out in both `_transform_wall` (line 78) and
`_transform_fenestration` (line 120); it is shared here. -/
def wall_name_of (orientation : String) : String :=
  (alookup orientation ORIENTATION_TO_WALL_NAME).getD (pyTitle orientation ++ " Wall")

/-- `ORIENTATION_TO_AZIMUTH.get(orientation, 0.0)`: likewise duplicated at
lines 79 and 121 of transform.py. -/
def default_azimuth_of (orientation : String) : ℚ :=
  (alookup orientation ORIENTATION_TO_AZIMUTH).getD 0

/-- `_get_zone_name`: name of the first conditioned zone, else `"Zone 1"`. -/
def get_zone_name (takeoff : TakeoffSpec) : String :=
  match takeoff.thermal_boundary.conditioned_zones with
  | z :: _ => z.name
  | [] => "Zone 1"

/-- `_transform_wall`. -/
def transform_wall (orientation : String) (wall : OrientationWall)
    (zone_name : String) : WallComponent :=
  let wall_name := wall_name_of orientation
  let default_azimuth := default_azimuth_of orientation
  let window_area := wall.total_fenestration_area
  let door_area := wall.total_door_area
  { name := wall_name
    zone := some zone_name
    status := wall.status
    construction_type := wall.construction_type
    orientation := some (wall.azimuth.getD default_azimuth)
    area := wall.gross_wall_area
    window_area := some (if window_area > 0 then window_area else 0)
    door_area := some (if door_area > 0 then door_area else 0)
    tilt := some 90
    framing_factor := wall.framing_factor }

/-- `_transform_walls`: `zone_name` is computed once before the loop. -/
def transform_walls (takeoff : TakeoffSpec) : List WallComponent :=
  (takeoff.house_walls.get_all_walls).map
    (fun p => transform_wall p.1 p.2 (get_zone_name takeoff))

/-- `_transform_fenestration`. -/
def transform_fenestration (fenestration : FenestrationEntry)
    (orientation : String) (wall : OrientationWall) : WindowComponent :=
  { name := fenestration.name
    wall := some (wall_name_of orientation)
    status := fenestration.status
    azimuth := some (wall.azimuth.getD (default_azimuth_of orientation))
    height := fenestration.height
    width := fenestration.width
    multiplier := some fenestration.multiplier
    area := fenestration.area
    u_factor := fenestration.u_factor
    shgc := fenestration.shgc
    exterior_shade := fenestration.exterior_shade }

/-- `_transform_windows`: every fenestration of every wall, in wall order. -/
def transform_windows (takeoff : TakeoffSpec) : List WindowComponent :=
  (takeoff.house_walls.get_all_walls).flatMap
    (fun p => p.2.fenestration.map (fun f => transform_fenestration f p.1 p.2))

/-- `_transform_conditioned_zone`. -/
def transform_conditioned_zone (zone : ConditionedZone) : ZoneInfo :=
  { name := zone.name
    zone_type := some "Conditioned"
    status := some "New"
    floor_area := zone.floor_area
    ceiling_height := zone.ceiling_height
    stories := some zone.stories
    volume := zone.volume
    exterior_wall_area := zone.exterior_wall_area
    exterior_wall_door_area := none
    ceiling_below_attic_area := zone.ceiling_below_attic_area
    cathedral_ceiling_area := zone.cathedral_ceiling_area
    slab_floor_area := zone.slab_floor_area
    exterior_floor_area := zone.exterior_floor_area }

/-- `_transform_unconditioned_zone`. -/
def transform_unconditioned_zone (zone : UnconditionedZone) : ZoneInfo :=
  { name := zone.name
    zone_type := some "Unconditioned"
    status := some "New"
    floor_area := zone.floor_area
    ceiling_height := none
    stories := none
    volume := zone.volume
    exterior_wall_area := none
    exterior_wall_door_area := none
    ceiling_below_attic_area := none
    cathedral_ceiling_area := none
    slab_floor_area := none
    exterior_floor_area := none }

/-- `_transform_zones`: conditioned zones first, then unconditioned. -/
def transform_zones (takeoff : TakeoffSpec) : List ZoneInfo :=
  takeoff.thermal_boundary.conditioned_zones.map transform_conditioned_zone ++
  takeoff.thermal_boundary.unconditioned_zones.map transform_unconditioned_zone

/-- The `is_cathedral` test of `_transform_ceilings` (lines 225-233):
"cathedral" or "vaulted" occurs in the lowered ceiling type, construction
type, or name. -/
def is_cathedral (c : CeilingEntry) : Bool :=
  let ceiling_type := (c.ceiling_type.getD "").toLower
  let construction := (c.construction_type.getD "").toLower
  let name_lower := c.name.toLower
  strContains ceiling_type "cathedral" || strContains ceiling_type "vaulted" ||
  strContains construction "cathedral" || strContains construction "vaulted" ||
  strContains name_lower "cathedral" || strContains name_lower "vaulted"

/-- `_transform_ceiling`. -/
def transform_ceiling (ceiling : CeilingEntry) : CeilingComponent :=
  { name := ceiling.name
    zone := ceiling.zone
    status := ceiling.status
    construction_type := ceiling.construction_type
    orientation := ceiling.orientation
    area := ceiling.area
    roof_rise := none
    roof_pitch := ceiling.roof_pitch
    roof_tilt := ceiling.roof_tilt
    roof_reflectance := ceiling.roof_reflectance
    roof_emittance := ceiling.roof_emittance
    framing_factor := ceiling.framing_factor }

/-- `_transform_ceilings`: only cathedral/vaulted ceilings are emitted. -/
def transform_ceilings (takeoff : TakeoffSpec) : List CeilingComponent :=
  (takeoff.ceilings.filter is_cathedral).map transform_ceiling

/-- `_transform_slab`. -/
def transform_slab (slab : SlabEntry) : SlabFloor :=
  { name := slab.name
    zone := slab.zone
    status := slab.status
    area := slab.area
    perimeter := slab.perimeter
    edge_insulation_r_value := slab.edge_insulation_r_value
    carpeted_fraction := slab.carpeted_fraction
    heated := some slab.heated }

/-- `_transform_slabs`. -/
def transform_slabs (takeoff : TakeoffSpec) : List SlabFloor :=
  takeoff.slab_floors.map transform_slab

/-- `_transform_hvac`: the three `if` guards use Python truthiness for the
float fields and an `is not None` test for `ducted`. -/
def transform_hvac (hvac : HVACSystemEntry) : HVACSystem :=
  let heating : Option HeatPumpHeating :=
    if pyTruthyQ hvac.hspf || pyTruthyQ hvac.afue || pyTruthyQ hvac.heating_capacity then
      some { system_type := hvac.heating_type
             hspf := hvac.hspf
             capacity_47 := hvac.heating_capacity
             capacity_17 := none
             auxiliary_heating_capacity := none
             ducted := hvac.ducted }
    else none
  let cooling : Option HeatPumpCooling :=
    if pyTruthyQ hvac.seer2 || pyTruthyQ hvac.eer2 || pyTruthyQ hvac.cooling_capacity then
      some { system_type := hvac.cooling_type
             seer2 := hvac.seer2
             eer2 := hvac.eer2
             cfm_per_ton := none
             ac_charge := none
             ducted := hvac.ducted }
    else none
  let distribution : Option DistributionSystem :=
    if hvac.ducted.isSome || pyTruthyQ hvac.duct_leakage_percent
        || pyTruthyQ hvac.duct_r_value then
      some { name := hvac.name ++ " Distribution"
             system_type := hvac.duct_location
             percent_leakage := hvac.duct_leakage_percent
             insulation_r_value := hvac.duct_r_value
             supply_area := none
             supply_diameter := none
             return_area := none
             return_diameter := none
             bypass_duct := none }
    else none
  { name := hvac.name
    status := hvac.status
    system_type := hvac.system_type
    heating := heating
    cooling := cooling
    distribution := distribution }

/-- `_transform_hvac_systems`. -/
def transform_hvac_systems (takeoff : TakeoffSpec) : List HVACSystem :=
  takeoff.hvac_systems.map transform_hvac

/-- `_transform_dhw`. -/
def transform_dhw (dhw : DHWSystem) : WaterHeatingSystem :=
  let water_heater : WaterHeater :=
    { name := dhw.name
      fuel := dhw.fuel
      tank_type := dhw.system_type
      volume := dhw.tank_volume
      energy_factor := dhw.energy_factor
      input_rating := dhw.input_rating
      input_rating_units := dhw.input_rating_units
      interior_insulation_r_value := none
      exterior_insulation_r_value := none
      standby_loss := none
      tank_location := dhw.location
      rated_flow := none
      first_hour_rating := none
      recovery_efficiency := dhw.recovery_efficiency }
  { name := dhw.name
    status := dhw.status
    system_type := dhw.system_type
    water_heaters := [water_heater] }

/-- `_transform_dhw_systems`. -/
def transform_dhw_systems (takeoff : TakeoffSpec) : List WaterHeatingSystem :=
  takeoff.dhw_systems.map transform_dhw

/-- `_transform_project`. -/
def transform_project (takeoff : TakeoffSpec) : ProjectInfo :=
  let proj := takeoff.project
  { run_id := proj.run_id
    run_title := proj.run_title
    run_number := proj.run_number
    run_scope := proj.run_scope
    address := proj.address
    city := proj.city
    climate_zone := proj.climate_zone
    standards_version := proj.standards_version
    all_orientations := proj.all_orientations
    fuel_type := proj.fuel_type
    house_type := proj.house_type
    dwelling_units := proj.dwelling_units
    stories := proj.stories
    bedrooms := proj.bedrooms
    attached_garage := some proj.attached_garage
    front_orientation := proj.front_orientation
    orientation_confidence := proj.orientation_confidence
    orientation_verification := proj.orientation_verification }

/-- `_transform_envelope`: wall/window totals summed over all walls (gross
wall area added only when truthy), project aggregates preferred when truthy,
results dropped to `None` when not positive. -/
def transform_envelope (takeoff : TakeoffSpec) : EnvelopeInfo :=
  let proj := takeoff.project
  let total_wall_area : ℚ :=
    ((takeoff.house_walls.get_all_walls).map
      (fun p => if pyTruthyQ p.2.gross_wall_area then p.2.gross_wall_area.getD 0 else 0)).sum
  let total_window_area : ℚ :=
    ((takeoff.house_walls.get_all_walls).map
      (fun p => p.2.total_fenestration_area)).sum
  let wall_area : ℚ :=
    if pyTruthyQ proj.exterior_wall_area then proj.exterior_wall_area.getD 0
    else total_wall_area
  let window_area : ℚ :=
    if pyTruthyQ proj.window_area then proj.window_area.getD 0 else total_window_area
  let slab_area : ℚ := (takeoff.slab_floors.map (fun s => s.area.getD 0)).sum
  { conditioned_floor_area := proj.conditioned_floor_area
    addition_conditioned_floor_area := some 0
    window_area := if window_area > 0 then some window_area else none
    window_to_floor_ratio := proj.window_to_floor_ratio
    fenestration_u_factor := none
    exterior_wall_area := if wall_area > 0 then some wall_area else none
    underground_wall_area := some 0
    slab_floor_area := if slab_area > 0 then some slab_area else none
    exposed_slab_floor_area := some 0
    below_grade_floor_area := some 0
    exposed_below_grade_floor_area := some 0
    pv_credit_available := none
    pv_generation_max_credit := none
    credit_available_for_pv := none
    final_pv_credit := none
    zonal_control := none
    infiltration_ach50 := none
    infiltration_cfm50 := none
    quality_insulation_installation := none }

/-- `transform_takeoff_to_building_spec` (transform.py lines 406-431). -/
def transform_takeoff_to_building_spec (takeoff : TakeoffSpec) : BuildingSpec :=
  { project := transform_project takeoff
    envelope := transform_envelope takeoff
    zones := transform_zones takeoff
    walls := transform_walls takeoff
    wall_constructions := []
    windows := transform_windows takeoff
    ceilings := transform_ceilings takeoff
    ceiling_constructions := []
    slab_floors := transform_slabs takeoff
    hvac_systems := transform_hvac_systems takeoff
    water_heating_systems := transform_dhw_systems takeoff
    extraction_status := []
    conflicts := [] }

/-- The azimuth default drawn from `ORIENTATION_TO_AZIMUTH.get(·, 0.0)` always
lies in `[0, 360)`. -/
theorem default_azimuth_bounds (o : String) :
    0 ≤ default_azimuth_of o ∧ default_azimuth_of o < 360 := by
  simp only [default_azimuth_of, ORIENTATION_TO_AZIMUTH, alookup]
  split_ifs <;> norm_num

/-- C9: for every `TakeoffSpec` whose explicit wall azimuths all lie in
`[0, 360)`, every window produced by `transform_takeoff_to_building_spec`
names as its `wall` attribute the `name` of some wall in the produced
`walls` list; each window's azimuth is its parent wall's explicit azimuth
when present and otherwise the default azimuth of the wall's orientation
key, where the defaults agree with the claimed map
`{north: 0, east: 90, south: 180, west: 270}`; and consequently every
window azimuth lies in `[0, 360)`. -/
theorem transform_windows_invariant (takeoff : TakeoffSpec)
    (haz : ∀ p ∈ takeoff.house_walls.get_all_walls, ∀ az : ℚ,
      p.2.azimuth = some az → 0 ≤ az ∧ az < 360) :
    (∀ w ∈ (transform_takeoff_to_building_spec takeoff).windows,
      (∃ wc ∈ (transform_takeoff_to_building_spec takeoff).walls, w.wall = some wc.name) ∧
      (∃ p ∈ takeoff.house_walls.get_all_walls,
        w.wall = some (wall_name_of p.1) ∧
        w.azimuth = some (p.2.azimuth.getD (default_azimuth_of p.1))) ∧
      (∀ az : ℚ, w.azimuth = some az → 0 ≤ az ∧ az < 360)) ∧
    (default_azimuth_of "north" = 0 ∧ default_azimuth_of "east" = 90 ∧
     default_azimuth_of "south" = 180 ∧ default_azimuth_of "west" = 270) := by
  constructor
  · intro w hw
    have hw2 : w ∈ (takeoff.house_walls.get_all_walls).flatMap
        (fun p => p.2.fenestration.map (fun f => transform_fenestration f p.1 p.2)) := hw
    rw [List.mem_flatMap] at hw2
    obtain ⟨p, hp, hmem⟩ := hw2
    rw [List.mem_map] at hmem
    obtain ⟨f, hf, hwf⟩ := hmem
    subst hwf
    refine ⟨⟨transform_wall p.1 p.2 (get_zone_name takeoff), ?_, rfl⟩,
      ⟨p, hp, rfl, rfl⟩, ?_⟩
    · show transform_wall p.1 p.2 (get_zone_name takeoff) ∈
        (takeoff.house_walls.get_all_walls).map
          (fun q => transform_wall q.1 q.2 (get_zone_name takeoff))
      exact List.mem_map_of_mem _ hp
    · intro az hazw
      have hr : (transform_fenestration f p.1 p.2).azimuth
          = some (p.2.azimuth.getD (default_azimuth_of p.1)) := rfl
      rw [hr, Option.some.injEq] at hazw
      subst hazw
      cases hpa : p.2.azimuth with
      | none => simpa [hpa] using default_azimuth_bounds p.1
      | some b => simpa [hpa] using haz p hp b hpa
  · refine ⟨rfl, rfl, rfl, rfl⟩

/-- A one-wall example: a north wall with no explicit azimuth carrying one
fenestration entry. -/
def exampleFen : FenestrationEntry :=
  { name := "W1", fenestration_type := none, status := none, height := none,
    width := none, area := some 12, multiplier := 1, u_factor := none, shgc := none,
    exterior_shade := none, overhang_depth := none }

/-- The north wall of the example takeoff. -/
def exampleNorthWall : OrientationWall :=
  { gross_wall_area := some 200, net_wall_area := none, azimuth := none,
    construction_type := none, framing_factor := none, status := none,
    fenestration := [exampleFen], opaque_doors := [] }

/-- A concrete `TakeoffSpec` with a single north wall. -/
def exampleTakeoff : TakeoffSpec :=
  { project :=
      { run_id := none, run_title := none, run_number := none, run_scope := none,
        address := none, city := none, climate_zone := none, standards_version := none,
        fuel_type := none, house_type := none, dwelling_units := none, stories := none,
        bedrooms := none, front_orientation := none, orientation_confidence := none,
        orientation_verification := none, all_orientations := none,
        conditioned_floor_area := none, window_area := none,
        window_to_floor_ratio := none, exterior_wall_area := none,
        attached_garage := false }
    house_walls :=
      { north := some exampleNorthWall, east := none, south := none, west := none,
        additional_walls := [] }
    thermal_boundary :=
      { conditioned_zones := [], unconditioned_zones := [],
        total_conditioned_floor_area := none }
    ceilings := [], slab_floors := [], hvac_systems := [], dhw_systems := [] }

/-- C9 witness: on the concrete example the azimuth hypothesis holds
(vacuously, the wall has no explicit azimuth), the produced window is
`("N Wall", 0)` against the produced wall `"N Wall"`, and the theorem's
wall-reference and azimuth-range conclusions hold. -/
theorem transform_windows_invariant_witness :
    (∀ p ∈ exampleTakeoff.house_walls.get_all_walls, ∀ az : ℚ,
        p.2.azimuth = some az → 0 ≤ az ∧ az < 360) ∧
    ((transform_takeoff_to_building_spec exampleTakeoff).windows.map
        (fun w => (w.wall, w.azimuth)) = [(some "N Wall", some 0)]) ∧
    ((transform_takeoff_to_building_spec exampleTakeoff).walls.map
        (fun wc => wc.name) = ["N Wall"]) ∧
    (∀ w ∈ (transform_takeoff_to_building_spec exampleTakeoff).windows,
      (∃ wc ∈ (transform_takeoff_to_building_spec exampleTakeoff).walls,
        w.wall = some wc.name) ∧
      (∀ az : ℚ, w.azimuth = some az → 0 ≤ az ∧ az < 360)) := by
  have hyp : ∀ p ∈ exampleTakeoff.house_walls.get_all_walls, ∀ az : ℚ,
      p.2.azimuth = some az → 0 ≤ az ∧ az < 360 := by
    intro p hp az hq
    have hp2 : p = ("north", exampleNorthWall) := by
      simpa [exampleTakeoff, HouseWalls.get_all_walls] using hp
    rw [hp2] at hq
    simp [exampleNorthWall] at hq
  refine ⟨hyp, rfl, rfl, fun w hw =>
    ⟨((transform_windows_invariant exampleTakeoff hyp).1 w hw).1,
     ((transform_windows_invariant exampleTakeoff hyp).1 w hw).2.2⟩⟩

end TakeOff
